import Mathlib

/-!
# cis_camera : control protocol engine and streaming state machine

Shallow embedding of `src/camera_driver.cpp` (class `cis_camera::CameraDriver`).

* Machine integers are `Int`/`Nat`; a store into a `uint16_t` is an explicit `% 65536`.
* The outside world (libuvc, the USB device, the ROS parameter server and the publishers)
  is an arbitrary deterministic machine over a state type `σ`, see `Uvc`.  Quantifying over
  `σ` and over the machine covers every outcome of every external call.
* Every external call made by the driver is recorded, in order, in `CameraDriver.trace`.
* The constants declared in `cis_camera/camera_driver.h` (opcodes, `kReconfigureClose`) are
  not defined in this source file and are parameters (`Opcodes`).
-/

namespace cis_camera

/-! ## Data model -/

/-- Acquisition state, `enum State` of `CameraDriver`. -/
inductive State
  | kInitial
  | kStopped
  | kRunning
  deriving DecidableEq, Repr

/-- A control buffer `uint16_t data[5]`; every word is kept below `65536`. -/
structure Ctrl where
  w0 : Nat
  w1 : Nat
  w2 : Nat
  w3 : Nat
  w4 : Nat
  deriving DecidableEq, Repr

/-- An array `int a[5]`. -/
structure Arr5 where
  a0 : Int
  a1 : Int
  a2 : Int
  a3 : Int
  a4 : Int
  deriving DecidableEq, Repr

/-- Read of `a[i]`, `i < 5`. -/
def Arr5.get (a : Arr5) (i : Nat) : Int :=
  match i with
  | 0 => a.a0
  | 1 => a.a1
  | 2 => a.a2
  | 3 => a.a3
  | _ => a.a4

/-- Read of `data[i]`, `i < 5`. -/
def Ctrl.get (d : Ctrl) (i : Nat) : Nat :=
  match i with
  | 0 => d.w0
  | 1 => d.w1
  | 2 => d.w2
  | 3 => d.w3
  | _ => d.w4

/-- Conversion of an `int` to `uint16_t` (reduction modulo `2^16`). -/
def u16 (x : Int) : Nat := (x % 65536).toNat

/-- Bytes written by the device into a `uint16_t[5]` buffer, read back as 16-bit words. -/
def Ctrl.norm (d : Ctrl) : Ctrl :=
  ⟨d.w0 % 65536, d.w1 % 65536, d.w2 % 65536, d.w3 % 65536, d.w4 % 65536⟩

/-- The opcode macros `TOF_SET_*` / `TOF_GET_*` and `kReconfigureClose` of
`cis_camera/camera_driver.h`; the header is not available, so the constants are
parameters of the development. -/
structure Opcodes where
  TOF_SET_EEPROM : Int
  TOF_SET_DEPTH_IR : Int
  TOF_SET_DEPTH_RANGE : Int
  TOF_SET_THRESHOLD : Int
  TOF_SET_NR_FILTER : Int
  TOF_SET_PULSE_COUNT : Int
  TOF_SET_LD_ENABLE : Int
  TOF_SET_IR_GAIN : Int
  TOF_SET_ERROR_STOP : Int
  TOF_SET_ERROR_CLEAR : Int
  TOF_GET_DEPTH_IR : Int
  TOF_GET_DEPTH_RANGE : Int
  TOF_GET_THRESHOLD : Int
  TOF_GET_NR_FILTER : Int
  TOF_GET_PULSE_COUNT : Int
  TOF_GET_LD_ENABLE : Int
  TOF_GET_DEPTH_CNV_GAIN : Int
  TOF_GET_DEPTH_INFO : Int
  TOF_GET_IR_GAIN : Int
  TOF_GET_TEMPERATURE : Int
  TOF_GET_ERROR_STOP : Int
  TOF_GET_VERSION : Int
  TOF_GET_ERROR_INFO : Int
  TOF_EEPROM_FACTORY_DEFAULT : Int
  kReconfigureClose : Nat

/-- Severity of a ROS console message. -/
inductive Level
  | info
  | warn
  | error
  deriving DecidableEq, Repr

/-- The frame formats of libuvc, `enum uvc_frame_format`, as far as the driver names
them (`UVC_COLOR_FORMAT_*` are aliases of `UVC_FRAME_FORMAT_*`). -/
inductive uvc_frame_format
  | UNKNOWN
  | UNCOMPRESSED
  | COMPRESSED
  | YUYV
  | UYVY
  | RGB
  | BGR
  | MJPEG
  | GRAY8
  | GRAY16
  deriving DecidableEq, Repr

/-- A captured frame, `uvc_frame_t`.  For a 16-bit grayscale frame `data` lists the 16-bit
samples of the buffer in order (`data_bytes` is twice its length); otherwise it lists the
bytes.  `capture_time` is `(tv_sec, tv_usec)`. -/
structure Frame where
  data : List Nat
  width : Nat
  height : Nat
  frame_format : uvc_frame_format
  capture_time : Int × Int
  deriving DecidableEq, Repr

/-- One externally visible action of the driver. -/
inductive Event
  /-- A read of the configuration source, `priv_nh_.getParam(name, _)`. -/
  | getParam (name : String)
  /-- The call `uvc_set_ctrl(devh_, 3, 0x03, data, size)`. -/
  | uvc_set_ctrl (devh : Option Nat) (data : Ctrl) (size : Int)
  /-- The call `uvc_get_ctrl(devh_, 3, 0x03, data, size, UVC_GET_CUR)`. -/
  | uvc_get_ctrl (devh : Option Nat) (data : Ctrl) (size : Int)
  /-- A console message: `ROS_INFO`, `ROS_WARN` or `ROS_ERROR` with its string and
  integer arguments. -/
  | ros (lvl : Level) (text : String) (sargs : List String) (iargs : List Int)
  | uvc_find_devices (ctx : Option Nat) (vendor product : Int) (serial : Option String)
  | uvc_unref_device (dev : Option Nat)
  | uvc_open (dev : Option Nat)
  | uvc_close (devh : Option Nat)
  | uvc_get_stream_ctrl_format_size (devh : Option Nat) (format : uvc_frame_format)
      (width height : Int) (fps : ℚ)
  | uvc_print_diag (devh : Option Nat)
  | uvc_start_streaming (devh : Option Nat)
  | uvc_free_frame (frame : Option Nat)
  | uvc_allocate_frame (bytes : Int)
  | uvc_any2bgr (out : Option Nat)
  | loadCameraInfo (url : String)
  | advertise (topic : String)
  /-- The call `cam_pub_.publish(image, cinfo)`: encoding, width, height, step, the image
  data (16-bit samples for `16UC1`, bytes for `bgr8`), frame id and time stamp. -/
  | publish_image (encoding : String) (width height step : Nat) (data : List Nat)
      (frame_id : String) (stamp : Int × Int)
  /-- The call `tof_t1_pub_.publish` (`chan = 1`) or `tof_t2_pub_.publish` (`chan = 2`). -/
  | publish_temperature (chan : Nat) (frame_id : String) (stamp : Int × Int)
      (temperature : ℚ)
  | updateConfig (config : Nat)
  deriving DecidableEq

/-- The members of `CameraDriver` together with the state `ext` of the outside world and
the record `trace` of the external calls made so far (oldest first).  Pointers are
`Option Nat`, `none` being `NULL`; a configuration `CISCameraConfig` is a number. -/
structure CameraDriver (σ : Type) where
  state_ : State
  ctx_ : Option Nat
  dev_ : Option Nat
  devh_ : Option Nat
  rgb_frame_ : Option Nat
  config_ : Nat
  config_changed_ : Bool
  ext : σ
  trace : List Event

/-- Append one event to the record. -/
def CameraDriver.emit {σ : Type} (s : CameraDriver σ) (e : Event) : CameraDriver σ :=
  { s with trace := s.trace ++ [e] }

/-- Replace the state of the outside world. -/
def CameraDriver.withExt {σ : Type} (s : CameraDriver σ) (x : σ) : CameraDriver σ :=
  { s with ext := x }

/-- The outside world: libuvc with the device behind it, the ROS parameter server, the
publishers and the C library.  Every function takes the state of the world and, where the
call can change it, returns the next state. -/
structure Uvc (σ : Type) where
  /-- The call `uvc_set_ctrl(devh, 3, 0x03, data, size)`: its return value (bytes
  transferred, or a negative error) and the next state. -/
  uvc_set_ctrl : σ → Option Nat → Ctrl → Int → Int × σ
  /-- The call `uvc_get_ctrl(devh, 3, 0x03, data, size, UVC_GET_CUR)`: return value, the
  content of the buffer afterwards and the next state. -/
  uvc_get_ctrl : σ → Option Nat → Ctrl → Int → Int × Ctrl × σ
  /-- The call `priv_nh_.getParam(name, int&)`: `none` when it returns `false`. -/
  getParam_int : σ → String → Option Int
  /-- The call `priv_nh_.getParam(name, std::string&)`. -/
  getParam_str : σ → String → Option String
  /-- The call `priv_nh_.getParam(name, double&)`. -/
  getParam_double : σ → String → Option ℚ
  /-- The call `strtol(str, NULL, 0)`. -/
  strtol : String → Int
  /-- The call `uvc_find_devices(ctx, &devs, vid, pid, serial)`: error code (`0` is
  `UVC_SUCCESS`), the devices found and the next state. -/
  uvc_find_devices : σ → Option Nat → Int → Int → Option String → Int × List Nat × σ
  /-- The call `uvc_open(dev, &devh)`: error code, the value of `devh` afterwards (the
  value before is the third argument) and the next state. -/
  uvc_open : σ → Option Nat → Option Nat → Int × Option Nat × σ
  /-- The call `uvc_get_stream_ctrl_format_size(devh, &ctrl, format, width, height, fps)`. -/
  uvc_get_stream_ctrl_format_size :
    σ → Option Nat → uvc_frame_format → Int → Int → ℚ → Int × σ
  /-- The call `uvc_start_streaming(devh, &ctrl, cb, this, 0)`. -/
  uvc_start_streaming : σ → Option Nat → Int × σ
  /-- The call `uvc_allocate_frame(bytes)`: the frame, `none` when allocation fails. -/
  uvc_allocate_frame : σ → Int → Option Nat × σ
  /-- The call `uvc_any2bgr(frame, rgb_frame_)`: error code, the bytes of the converted
  frame and the next state. -/
  uvc_any2bgr : σ → Frame → Option Nat → Int × List Nat × σ
  /-- The effect on the world of a call that returns nothing (`uvc_close`,
  `uvc_unref_device`, `uvc_print_diag`, `uvc_free_frame`, `loadCameraInfo`, `advertise`,
  the publications, `updateConfig`), identified by its event. -/
  effect : σ → Event → σ
  /-- The call `ros::Time::now()` as `(sec, nsec)`. -/
  now : σ → Int × Int
  /-- The call `ros::this_node::getName()`. -/
  getName : σ → String
  /-- The indeterminate value read from an `int` local that was never assigned. -/
  uninit_int : Int
  /-- The indeterminate value read from a `double` local that was never assigned. -/
  uninit_double : ℚ

/-- A call that returns nothing: it is recorded and the world moves on. -/
def CameraDriver.call {σ : Type} (U : Uvc σ) (s : CameraDriver σ) (e : Event) :
    CameraDriver σ :=
  (s.withExt (U.effect s.ext e)).emit e

/-! ## Control channel -/

section Control

variable {σ : Type}

/-- `CameraDriver::TOF_SetCtrl`. -/
def TOF_SetCtrl (U : Uvc σ) (s : CameraDriver σ) (data : Ctrl) (size : Int) :
    Int × CameraDriver σ :=
  let r := U.uvc_set_ctrl s.ext s.devh_ data size
  let err := r.1
  let s1 := (s.withExt r.2).emit (.uvc_set_ctrl s.devh_ data size)
  if err ≠ size then
    (err, s1.emit (.ros .error "Set Ctrl failed. Error: %d" [] [err]))
  else
    (err, s1)

/-- `CameraDriver::TOF_GetCtrl`; the second component is the buffer `data` on return. -/
def TOF_GetCtrl (U : Uvc σ) (s : CameraDriver σ) (data : Ctrl) (size : Int) :
    Int × Ctrl × CameraDriver σ :=
  let w := TOF_SetCtrl U s data size
  let err := w.1
  if err ≠ size then
    (err, data, w.2.emit (.ros .error "Set Ctrl to Get failed : Error: %d" [] [err]))
  else
    let r := U.uvc_get_ctrl w.2.ext w.2.devh_ data size
    let err := r.1
    let data1 := r.2.1.norm
    let s1 := (w.2.withExt r.2.2).emit (.uvc_get_ctrl w.2.devh_ data size)
    if err ≠ size then
      (err, data1, s1.emit (.ros .error "Get Ctrl failed. Error: %d" [] [err]))
    else
      (err, data1, s1)

end Control

/-! ## Parameter registry -/

section Registry

variable {σ : Type}

/-- The locals `param_set`, `param_min`, `param_max` and `recv` of
`TOF_SetMode_ROSParameter` after the name dispatch. -/
structure Dispatch where
  param_set : Arr5
  param_min : Arr5
  param_max : Arr5
  recv : Ctrl
  deriving DecidableEq, Repr

/-- The assignments common to every branch of the name dispatch:
`param_set[0] = set_op; param_set[1] = param; param_min[1] = lo; param_max[1] = hi;
recv[0] = get_op;` applied to the initial values of the locals. -/
def branch (K : Opcodes) (set_op get_op lo hi param : Int) : Dispatch :=
  let param_set : Arr5 := ⟨K.TOF_SET_DEPTH_IR, 0, 0, 0, 0⟩
  let param_min : Arr5 := ⟨0x0000, 0, 0, 0, 0⟩
  let param_max : Arr5 := ⟨0xFFFF, 1, 1, 1, 1⟩
  let recv : Ctrl := ⟨u16 K.TOF_GET_DEPTH_IR, 0, 0, 0, 0⟩
  { param_set := { param_set with a0 := set_op, a1 := param }
    param_min := { param_min with a1 := lo }
    param_max := { param_max with a1 := hi }
    recv := { recv with w0 := u16 get_op } }

/-- The `if / else if` chain on `param_name` of `TOF_SetMode_ROSParameter`; `none` is the
final `else` (unmatched name). -/
def dispatch (K : Opcodes) (param_name : String) (param : Int) : Option Dispatch :=
  if param_name = "depth_ir" then
    some (branch K K.TOF_SET_DEPTH_IR K.TOF_GET_DEPTH_IR 0 1 param)
  else if param_name = "depth_range" then
    some (branch K K.TOF_SET_DEPTH_RANGE K.TOF_GET_DEPTH_RANGE 0 1 param)
  else if param_name = "threshold" then
    some (branch K K.TOF_SET_THRESHOLD K.TOF_GET_THRESHOLD 0x0000 0x3FFF param)
  else if param_name = "nr_filter" then
    some (branch K K.TOF_SET_NR_FILTER K.TOF_GET_NR_FILTER 0 1 param)
  else if param_name = "pulse_count" then
    some (branch K K.TOF_SET_PULSE_COUNT K.TOF_GET_PULSE_COUNT 1 2000 param)
  else if param_name = "ld_enable" then
    some (branch K K.TOF_SET_LD_ENABLE K.TOF_GET_LD_ENABLE 0 15 param)
  else if param_name = "ir_gain" then
    some (branch K K.TOF_SET_IR_GAIN K.TOF_GET_IR_GAIN 0 0x07FF param)
  else if param_name = "error_stop" then
    some (branch K K.TOF_SET_ERROR_STOP K.TOF_GET_ERROR_STOP 0 1 param)
  else
    none

/-- One iteration of the `Value Check` loop: the word stored into `send[i]`. -/
def valueCheckWord (param_set param_min param_max : Arr5) (i : Nat) : Nat :=
  if param_set.get i < param_min.get i then u16 (param_min.get i)
  else if param_max.get i < param_set.get i then u16 (param_max.get i)
  else u16 (param_set.get i)

/-- The `Value Check` loop `for ( int i = 0; i < 5; i++ )`: the array `send` after it. -/
def valueCheck (param_set param_min param_max : Arr5) : Ctrl :=
  ⟨valueCheckWord param_set param_min param_max 0,
   valueCheckWord param_set param_min param_max 1,
   valueCheckWord param_set param_min param_max 2,
   valueCheckWord param_set param_min param_max 3,
   valueCheckWord param_set param_min param_max 4⟩

/-- The value of `sizeof(send)` and `sizeof(recv)`: five 16-bit words. -/
def sizeofCtrl : Int := 10

/-- `CameraDriver::TOF_SetMode_ROSParameter`. -/
def TOF_SetMode_ROSParameter (K : Opcodes) (U : Uvc σ) (s : CameraDriver σ)
    (param_name : String) : Int × CameraDriver σ :=
  let s0 := s.emit (.getParam param_name)
  match U.getParam_int s.ext param_name with
  | none =>
    (0, s0.emit (.ros .error "Parameter Acquisition Error : %s" [param_name] []))
  | some param =>
    match dispatch K param_name param with
    | none =>
      (0, s0.emit (.ros .warn "Unmatch Parameter Name : %s" [param_name] []))
    | some d =>
      let send := valueCheck d.param_set d.param_min d.param_max
      let w := TOF_SetCtrl U s0 send sizeofCtrl
      if w.1 = sizeofCtrl then
        let s1 := w.2.emit (.ros .info "Set Parameter %s as \x7b %d, %d, %d, %d \x7d on TOF Camera"
          [param_name] [send.w1, send.w2, send.w3, send.w4])
        let g := TOF_GetCtrl U s1 d.recv sizeofCtrl
        let recv := g.2.1
        if g.1 = sizeofCtrl then
          (g.1, g.2.2.emit (.ros .info "Get Parameter %s as \x7b %d, %d, %d, %d \x7d on TOF Camera"
            [param_name] [recv.w1, recv.w2, recv.w3, recv.w4]))
        else
          (g.1, g.2.2.emit (.ros .error "Get Parameter of %s for Check Failed. Error : %d"
            [param_name] [g.1]))
      else
        (w.1, w.2.emit (.ros .error "Set Parameter %s failed. Error: %d" [param_name] [w.1]))

/-- The array `rosparam_names` of `TOF_SetMode_All`. -/
def rosparam_names : List String :=
  ["depth_ir", "depth_range", "threshold", "nr_filter", "pulse_count", "ld_enable",
   "ir_gain", "error_stop"]

/-- The loop of `TOF_SetMode_All` from index `i` on, over the remaining names. -/
def TOF_SetMode_All_loop (K : Opcodes) (U : Uvc σ) :
    List String → Nat → CameraDriver σ → CameraDriver σ
  | [], _, s => s
  | rp_name :: rest, i, s =>
    let s1 := s.emit (.ros .info "%d. ROS Param : %s" [rp_name] [i])
    let r := TOF_SetMode_ROSParameter K U s1 rp_name
    TOF_SetMode_All_loop K U rest (i + 1) r.2

/-- `CameraDriver::TOF_SetMode_All`. -/
def TOF_SetMode_All (K : Opcodes) (U : Uvc σ) (s : CameraDriver σ) : CameraDriver σ :=
  TOF_SetMode_All_loop K U rosparam_names 0 s

end Registry

/-! ## Binary64 arithmetic

A finite `double` is represented by the rational number it denotes.  An arithmetic
operation of the program is the exact operation followed by `fl`, rounding to the nearest
binary64 value with ties to even (the default IEEE-754 mode).  The exponent range is not
modelled: every value computed by the driver lies between `2^-2` and `2^19`, far inside
the normal range, so neither overflow nor gradual underflow occurs. -/

/-- Nearest integer to `y`, ties to the even neighbour. -/
def roundHalfEven (y : ℚ) : ℤ :=
  let f := ⌊y⌋
  if y - f < 1 / 2 then f else if 1 / 2 < y - f then f + 1 else if f % 2 = 0 then f else f + 1

/-- The binary64 value nearest to `x`: `x` is scaled by the power of two that brings it
into `[2^52, 2^53)`, rounded to an integer (53 significant bits) and scaled back. -/
def fl (x : ℚ) : ℚ :=
  if x = 0 then 0 else
    let u : ℤ := Int.log 2 |x| - 52
    (roundHalfEven (x / 2 ^ u) : ℚ) * 2 ^ u

/-- Conversion of a `double` to an integer type: the fraction is discarded (truncation
toward zero). -/
def truncToInt (x : ℚ) : ℤ := if 0 ≤ x then ⌊x⌋ else ⌈x⌉

/-- The expression `(uint16_t)(data[i]*0.406615*4.0)` of `ImageCallback` for the sample
value `raw`: `data[i]` is converted to `double`, multiplied by the literal `0.406615`,
the product by the literal `4.0`, and the result is converted to `uint16_t`.  C++ leaves
the conversion undefined when the truncated value does not fit; it is modelled as
reduction modulo `2^16`. -/
def rescaleSample (raw : Nat) : Nat :=
  u16 (truncToInt (fl (fl (fl (raw : ℚ) * fl (406615 / 1000000)) * fl 4)))

/-- The value of `data[i]*0.406615*4.0` truncated to an integer, that is the value the
conversion `(uint16_t)(...)` of `ImageCallback` has to store, before the store. -/
def rescaleValue (raw : Nat) : ℤ :=
  truncToInt (fl (fl (fl (raw : ℚ) * fl (406615 / 1000000)) * fl 4))

/-! ## Telemetry reader -/

section Telemetry

variable {σ : Type}

/-- The common body of the register readers `TOF_Get*`: build `data = (op, 0, 0, 0, 0)`,
call `TOF_GetCtrl`, and write the success message with the arguments `args data` or the
failure message with the error.  Returns the error and the buffer. -/
def readRegister (U : Uvc σ) (s : CameraDriver σ) (op : Int) (okText : String)
    (args : Ctrl → List Int) (errText : String) : Int × Ctrl × CameraDriver σ :=
  let data : Ctrl := ⟨u16 op, 0, 0, 0, 0⟩
  let g := TOF_GetCtrl U s data sizeofCtrl
  if g.1 = sizeofCtrl then
    (g.1, g.2.1, g.2.2.emit (.ros .info okText [] (args g.2.1)))
  else
    (g.1, g.2.1, g.2.2.emit (.ros .error errText [] [g.1]))

/-- `CameraDriver::TOF_GetDepthIR`. -/
def TOF_GetDepthIR (K : Opcodes) (U : Uvc σ) (s : CameraDriver σ) :
    Int × Ctrl × CameraDriver σ :=
  readRegister U s K.TOF_GET_DEPTH_IR "Get Depth/IR Mode : %d" (fun d => [d.w1])
    "Get Depth IR Mode failed. Error : %d"

/-- `CameraDriver::TOF_GetDepthRange`. -/
def TOF_GetDepthRange (K : Opcodes) (U : Uvc σ) (s : CameraDriver σ) :
    Int × Ctrl × CameraDriver σ :=
  readRegister U s K.TOF_GET_DEPTH_RANGE "Get Depth Range Mode : %d / Index : %d"
    (fun d => [d.w1, d.w2]) "Get Depth  Range Mode failed. Error : %d"

/-- `CameraDriver::TOF_GetThreshold`. -/
def TOF_GetThreshold (K : Opcodes) (U : Uvc σ) (s : CameraDriver σ) :
    Int × Ctrl × CameraDriver σ :=
  readRegister U s K.TOF_GET_THRESHOLD "Get Threshold : %d" (fun d => [d.w1])
    "Get Threshold failed. Error : %d"

/-- `CameraDriver::TOF_GetNRFilter`. -/
def TOF_GetNRFilter (K : Opcodes) (U : Uvc σ) (s : CameraDriver σ) :
    Int × Ctrl × CameraDriver σ :=
  readRegister U s K.TOF_GET_NR_FILTER "Get NR Filter : %d" (fun d => [d.w1])
    "Get NR Filter failed. Error : %d"

/-- `CameraDriver::TOF_GetPulseCount`. -/
def TOF_GetPulseCount (K : Opcodes) (U : Uvc σ) (s : CameraDriver σ) :
    Int × Ctrl × CameraDriver σ :=
  readRegister U s K.TOF_GET_PULSE_COUNT "Get Pulse Count : %d" (fun d => [d.w1])
    "Get Pulse Count failed. Error : %d"

/-- `CameraDriver::TOF_GetLDEnable`. -/
def TOF_GetLDEnable (K : Opcodes) (U : Uvc σ) (s : CameraDriver σ) :
    Int × Ctrl × CameraDriver σ :=
  readRegister U s K.TOF_GET_LD_ENABLE "Get LD Enable : %d" (fun d => [d.w1])
    "Get LD Enable failed. Error : %d"

/-- The 64 bits read by `*(double*)(&data[1])`: the four 16-bit words from `data[1]` on,
lowest word first (little-endian host). -/
def doubleBits (d : Ctrl) : Nat :=
  d.w1 + d.w2 * 2 ^ 16 + d.w3 * 2 ^ 32 + d.w4 * 2 ^ 48

/-- `CameraDriver::TOF_GetDepthCnvGain`; the gain is reported by its bit pattern. -/
def TOF_GetDepthCnvGain (K : Opcodes) (U : Uvc σ) (s : CameraDriver σ) :
    Int × Ctrl × CameraDriver σ :=
  readRegister U s K.TOF_GET_DEPTH_CNV_GAIN "Get Depth Cnv Gain : %f"
    (fun d => [doubleBits d]) "Get Depth Cnv Gain failed. Error : %d"

/-- The value read by `*(short*)(&data[i])` from a 16-bit word. -/
def asShort (w : Nat) : Int := if w < 32768 then w else (w : Int) - 65536

/-- `CameraDriver::TOF_GetDepthInfo`. -/
def TOF_GetDepthInfo (K : Opcodes) (U : Uvc σ) (s : CameraDriver σ) :
    Int × Ctrl × CameraDriver σ :=
  readRegister U s K.TOF_GET_DEPTH_INFO
    "Get Depth Info - Offset: %d / Max Data : %d / min Distance : %d [mm] MAX Distance :%d [mm]"
    (fun d => [asShort d.w1, d.w2, d.w3, d.w4]) "Get Depth Info failed. Error : %d"

/-- `CameraDriver::TOF_GetIRGain`. -/
def TOF_GetIRGain (K : Opcodes) (U : Uvc σ) (s : CameraDriver σ) :
    Int × Ctrl × CameraDriver σ :=
  readRegister U s K.TOF_GET_IR_GAIN "Get IR Gain : %d" (fun d => [d.w1])
    "Get IR Gain failed. Error : %d"

/-- `CameraDriver::TOF_GetTemperature` called with the current values `t1`, `t2` of its
reference parameters: the error and the values of `t1` and `t2` on return.  The success
message is commented out in the source. -/
def TOF_GetTemperature (K : Opcodes) (U : Uvc σ) (s : CameraDriver σ) (t1 t2 : ℚ) :
    Int × ℚ × ℚ × CameraDriver σ :=
  let data : Ctrl := ⟨u16 K.TOF_GET_TEMPERATURE, 0, 0, 0, 0⟩
  let g := TOF_GetCtrl U s data sizeofCtrl
  let data := g.2.1
  if g.1 = sizeofCtrl then
    (g.1, fl (fl (data.w1 : ℚ) / fl 256), fl (fl (data.w2 : ℚ) / fl 256), g.2.2)
  else
    (g.1, t1, t2, g.2.2.emit (.ros .error "Get Temperature failed. Error: %d" [] [g.1]))

/-- `CameraDriver::TOF_GetErrorStop`. -/
def TOF_GetErrorStop (K : Opcodes) (U : Uvc σ) (s : CameraDriver σ) :
    Int × Ctrl × CameraDriver σ :=
  readRegister U s K.TOF_GET_ERROR_STOP "Get Error Stop : %d" (fun d => [d.w1])
    "Get Error Stop failed. Error : %d"

/-- `CameraDriver::TOF_GetVersion`. -/
def TOF_GetVersion (K : Opcodes) (U : Uvc σ) (s : CameraDriver σ) :
    Int × Ctrl × CameraDriver σ :=
  readRegister U s K.TOF_GET_VERSION
    "Get Version : %x / Build : %x / Build Date : %x%x (YYYYMMDD)"
    (fun d => [d.w1, d.w2, d.w3, d.w4]) "Get Version failed. Error: %d"

/-- `CameraDriver::TOF_GetErrorInfo`. -/
def TOF_GetErrorInfo (K : Opcodes) (U : Uvc σ) (s : CameraDriver σ) :
    Int × Ctrl × CameraDriver σ :=
  readRegister U s K.TOF_GET_ERROR_INFO
    "Get Error Info - Common : 0x%02x / EEPROM Factory : 0x%02x / EEPROM : 0x%02x / MIPI/Temperature : 0x%02x"
    (fun d => [d.w1, d.w2, d.w3, d.w4]) "Get Error Info failed. Error: %d"

/-- `CameraDriver::TOF_GetInfo_All`; the locals `t1`, `t2` are never assigned before the
temperature read, and the two floating-point arguments of its message are not recorded. -/
def TOF_GetInfo_All (K : Opcodes) (U : Uvc σ) (s : CameraDriver σ) : CameraDriver σ :=
  let s := (TOF_GetVersion K U s).2.2
  let s := (TOF_GetDepthIR K U s).2.2
  let s := (TOF_GetDepthRange K U s).2.2
  let s := (TOF_GetThreshold K U s).2.2
  let s := (TOF_GetNRFilter K U s).2.2
  let s := (TOF_GetPulseCount K U s).2.2
  let s := (TOF_GetLDEnable K U s).2.2
  let s := (TOF_GetDepthCnvGain K U s).2.2
  let s := (TOF_GetDepthInfo K U s).2.2
  let s := (TOF_GetIRGain K U s).2.2
  let t := TOF_GetTemperature K U s U.uninit_double U.uninit_double
  let s := t.2.2.2.emit (.ros .info "Get Temperature T1 : %.1f / T2 : %.1f [deg C]" [] [])
  let s := (TOF_GetErrorStop K U s).2.2
  (TOF_GetErrorInfo K U s).2.2

/-- `CameraDriver::TOF_SetEEPROMMode`. -/
def TOF_SetEEPROMMode (K : Opcodes) (U : Uvc σ) (s : CameraDriver σ) (mode : Nat) :
    Int × CameraDriver σ :=
  let val_min : Nat := 0x0000
  let val_max : Nat := 0x0001
  let w1 := if mode < val_min then val_min else if val_max < mode then val_max else mode
  let send : Ctrl := ⟨u16 K.TOF_SET_EEPROM, w1, 0, 0, 0⟩
  let w := TOF_SetCtrl U s send sizeofCtrl
  if w.1 = sizeofCtrl then
    (w.1, w.2.emit (.ros .info "Set EEPROM Mode : %d" [] [send.w1]))
  else
    (w.1, w.2.emit (.ros .error "Set EEPROM Mode failed. Error: %d" [] [w.1]))

/-- `CameraDriver::TOF_ClearError`. -/
def TOF_ClearError (K : Opcodes) (U : Uvc σ) (s : CameraDriver σ) : Int × CameraDriver σ :=
  let send : Ctrl := ⟨u16 K.TOF_SET_ERROR_CLEAR, 0, 0, 0, 0⟩
  let w := TOF_SetCtrl U s send sizeofCtrl
  if w.1 = sizeofCtrl then
    (w.1, w.2.emit (.ros .info "Clear TOF Camera Errors" [] []))
  else
    (w.1, w.2.emit (.ros .error "Clear TOF Camera Errors failed. Error: %d" [] [w.1]))

/-- `CameraDriver::TOF_PublishTemperature`; the locals `t1`, `t2` are never assigned
before the temperature read. -/
def TOF_PublishTemperature (K : Opcodes) (U : Uvc σ) (s : CameraDriver σ)
    (frame_id : String) : CameraDriver σ :=
  let t := TOF_GetTemperature K U s U.uninit_double U.uninit_double
  let s1 := t.2.2.2
  let stamp := U.now s1.ext
  let s2 := s1.call U (.publish_temperature 1 frame_id stamp t.2.1)
  s2.call U (.publish_temperature 2 frame_id stamp t.2.2.1)

end Telemetry

/-! ## Device session -/

section Session

variable {σ : Type}

/-- `CameraDriver::GetVideoMode`; the second component says whether the name was invalid
(two console messages are then written). -/
def GetVideoMode (vmode : String) : uvc_frame_format × Bool :=
  if vmode = "uncompressed" then (.UNCOMPRESSED, false)
  else if vmode = "compressed" then (.COMPRESSED, false)
  else if vmode = "yuyv" then (.YUYV, false)
  else if vmode = "uyvy" then (.UYVY, false)
  else if vmode = "rgb" then (.RGB, false)
  else if vmode = "bgr" then (.BGR, false)
  else if vmode = "mjpeg" then (.MJPEG, false)
  else if vmode = "gray8" then (.GRAY8, false)
  else if vmode = "gray16" then (.GRAY16, false)
  else (.UNCOMPRESSED, true)

/-- `CameraDriver::CloseCamera`. -/
def CloseCamera (U : Uvc σ) (s : CameraDriver σ) : CameraDriver σ :=
  let s1 := s.call U (.uvc_close s.devh_)
  let s2 := { s1 with devh_ := none }
  let s3 := s2.call U (.uvc_unref_device s2.dev_)
  let s4 := { s3 with dev_ := none }
  { s4 with state_ := .kStopped }

/-- The device selection loop of `OpenCamera` over the devices from position `dev_idx`
on: the device at position `index_id` becomes `dev_`, every other one is released. -/
def selectDevice (U : Uvc σ) (index_id : Int) :
    List Nat → Nat → CameraDriver σ → CameraDriver σ
  | [], _, s => s
  | dev :: rest, dev_idx, s =>
    let s1 :=
      if (dev_idx : Int) = index_id then { s with dev_ := some dev }
      else s.call U (.uvc_unref_device (some dev))
    selectDevice U index_id rest (dev_idx + 1) s1

/-- The last part of `OpenCamera`, entered once streaming has started: the conversion
frame is allocated, the calibration is loaded, the TOF settings are written and read
back, the temperature publishers are created and the state becomes `kRunning`. -/
def OpenCamera_configure (K : Opcodes) (U : Uvc σ) (s : CameraDriver σ)
    (frame_width frame_height : Int) : CameraDriver σ :=
  let s1 := if s.rgb_frame_ ≠ none then s.call U (.uvc_free_frame s.rgb_frame_) else s
  let a := U.uvc_allocate_frame s1.ext (frame_width * frame_height * 3)
  let s2 := ({ s1 with rgb_frame_ := a.1 }.withExt a.2).emit
    (.uvc_allocate_frame (frame_width * frame_height * 3))
  let s3 := s2.emit (.getParam "camera_info_url")
  let camera_info_url := (U.getParam_str s3.ext "camera_info_url").getD ""
  let s4 := s3.call U (.loadCameraInfo camera_info_url)
  -- TOF camera settings
  let s5 := (TOF_SetEEPROMMode K U s4 (u16 K.TOF_EEPROM_FACTORY_DEFAULT)).2
  let s6 := (TOF_ClearError K U s5).2
  let s7 := TOF_SetMode_All K U s6
  -- TOF camera informations
  let s8 := TOF_GetInfo_All K U s7
  -- publishers for the temperatures
  let node_name := U.getName s8.ext
  let s9 := s8.call U (.advertise (node_name ++ "/t1"))
  let s10 := s9.call U (.advertise (node_name ++ "/t2"))
  { s10 with state_ := .kRunning }

/-- The middle part of `OpenCamera`, entered once the device is open: the stream format
is negotiated and streaming is started; either failure closes the device and returns. -/
def OpenCamera_stream (K : Opcodes) (U : Uvc σ) (s : CameraDriver σ) : CameraDriver σ :=
  let s1 := s.emit (.getParam "width")
  let frame_width := (U.getParam_int s1.ext "width").getD 640
  let s2 := s1.emit (.getParam "height")
  let frame_height := (U.getParam_int s2.ext "height").getD 480
  let s3 := s2.emit (.getParam "frame_rate")
  let frame_rate := (U.getParam_double s3.ext "frame_rate").getD 1000
  let s4 := s3.emit (.getParam "video_mode")
  let video_mode := (U.getParam_str s4.ext "video_mode").getD "uncompressed"
  let vm := GetVideoMode video_mode
  let s5 :=
    if vm.2 then
      (s4.emit (.ros .error "Invalid Video Mode: " [video_mode] [])).emit
        (.ros .warn "Continue using video mode: uncompressed" [] [])
    else s4
  let m := U.uvc_get_stream_ctrl_format_size s5.ext s5.devh_ vm.1 frame_width frame_height
    frame_rate
  let s6 := (s5.withExt m.2).emit
    (.uvc_get_stream_ctrl_format_size s5.devh_ vm.1 frame_width frame_height frame_rate)
  if m.1 ≠ 0 then
    let s7 := s6.emit (.ros .error "uvc_get_stream_ctrl_format_size" [] [])
    let s8 := s7.call U (.uvc_close s7.devh_)
    let s9 := s8.call U (.uvc_unref_device s8.dev_)
    let s10 := s9.emit
      (.ros .error "check video_mode/width/height/frame_rate are available" [] [])
    s10.call U (.uvc_print_diag s10.devh_)
  else
    let t := U.uvc_start_streaming s6.ext s6.devh_
    let s7 := (s6.withExt t.2).emit (.uvc_start_streaming s6.devh_)
    if t.1 ≠ 0 then
      let s8 := s7.emit (.ros .error "uvc_start_streaming" [] [])
      let s9 := s8.call U (.uvc_close s8.devh_)
      s9.call U (.uvc_unref_device s9.dev_)
    else
      OpenCamera_configure K U s7 frame_width frame_height

/-- The part of `OpenCamera` entered once the devices are found: the device at position
`index_id` is selected and opened; a missing device or a refused open returns.  The bus
number and device address in the messages about a refused open are not recorded. -/
def OpenCamera_select (K : Opcodes) (U : Uvc σ) (s : CameraDriver σ) (index_id : Int)
    (devs : List Nat) : CameraDriver σ :=
  -- select device by index
  let s1 := selectDevice U index_id devs 0 { s with dev_ := none }
  if s1.dev_ = none then
    s1.emit (.ros .error "Unable to find device at index %d" [] [index_id])
  else
    let o := U.uvc_open s1.ext s1.dev_ s1.devh_
    let s2 := ({ s1 with devh_ := o.2.1 }.withExt o.2.2).emit (.uvc_open s1.dev_)
    if o.1 ≠ 0 then
      let s3 :=
        if o.1 = -3 then
          s2.emit (.ros .error "Permission denied opening /dev/bus/usb/%03d/%03d" [] [])
        else
          s2.emit (.ros .error "Can't open /dev/bus/usb/%03d/%03d: %s (%d)" [] [o.1])
      s3.call U (.uvc_unref_device s3.dev_)
    else
      OpenCamera_stream K U s2

/-- `CameraDriver::OpenCamera`: the identification parameters are read (`param_st` keeps
its value when a read fails) and the devices are looked up; the rest of the function is
`OpenCamera_select`, `OpenCamera_stream` and `OpenCamera_configure`. -/
def OpenCamera (K : Opcodes) (U : Uvc σ) (s : CameraDriver σ) : CameraDriver σ :=
  let s1 := s.emit (.getParam "vendor")
  let param_st1 := (U.getParam_str s1.ext "vendor").getD ""
  let vendor_id := U.strtol param_st1
  let s2 := s1.emit (.getParam "product")
  let param_st2 := (U.getParam_str s2.ext "product").getD param_st1
  let product_id := U.strtol param_st2
  let s3 := s2.emit (.getParam "serial")
  let param_st3 := (U.getParam_str s3.ext "serial").getD param_st2
  let serial_id := param_st3
  let s4 := s3.emit (.getParam "index")
  let param_st4 := (U.getParam_str s4.ext "index").getD param_st3
  let index_id := U.strtol param_st4
  let s5 := s4.emit
    (.ros .info "Opening camera with vendor=0x%x, product=0x%x, serial=\"%s\", index=%d"
      [serial_id] [vendor_id, product_id, index_id])
  let serial := if serial_id = "" then none else some serial_id
  let f := U.uvc_find_devices s5.ext s5.ctx_ vendor_id product_id serial
  let s6 := (s5.withExt f.2.2).emit (.uvc_find_devices s5.ctx_ vendor_id product_id serial)
  if f.1 ≠ 0 then
    s6.emit (.ros .error "uvc_find_device" [] [])
  else
    OpenCamera_select K U s6 index_id f.2.1

/-- `CameraDriver::ReconfigureCallback`. -/
def ReconfigureCallback (K : Opcodes) (U : Uvc σ) (s : CameraDriver σ) (new_config : Nat)
    (level : Nat) : CameraDriver σ :=
  let s1 :=
    if level &&& K.kReconfigureClose = K.kReconfigureClose then
      if s.state_ = .kRunning then CloseCamera U s else s
    else s
  let s2 := if s1.state_ = .kStopped then OpenCamera K U s1 else s1
  { s2 with config_ := new_config }

/-- The first part of `OpenCamera`, up to the device lookup: `find_err`, the devices
found, `index_id` and the driver after the call of `uvc_find_devices`. -/
def OpenCamera_lookup (U : Uvc σ) (s : CameraDriver σ) :
    Int × List Nat × Int × CameraDriver σ :=
  let s1 := s.emit (.getParam "vendor")
  let param_st1 := (U.getParam_str s1.ext "vendor").getD ""
  let vendor_id := U.strtol param_st1
  let s2 := s1.emit (.getParam "product")
  let param_st2 := (U.getParam_str s2.ext "product").getD param_st1
  let product_id := U.strtol param_st2
  let s3 := s2.emit (.getParam "serial")
  let param_st3 := (U.getParam_str s3.ext "serial").getD param_st2
  let serial_id := param_st3
  let s4 := s3.emit (.getParam "index")
  let param_st4 := (U.getParam_str s4.ext "index").getD param_st3
  let index_id := U.strtol param_st4
  let s5 := s4.emit
    (.ros .info "Opening camera with vendor=0x%x, product=0x%x, serial=\"%s\", index=%d"
      [serial_id] [vendor_id, product_id, index_id])
  let serial := if serial_id = "" then none else some serial_id
  let f := U.uvc_find_devices s5.ext s5.ctx_ vendor_id product_id serial
  let s6 := (s5.withExt f.2.2).emit (.uvc_find_devices s5.ctx_ vendor_id product_id serial)
  (f.1, f.2.1, index_id, s6)

/-- The call of `uvc_open` in `OpenCamera`, made on the driver `s` left by the selection
loop: `open_err` and the driver after the call. -/
def OpenCamera_opened (U : Uvc σ) (s : CameraDriver σ) : Int × CameraDriver σ :=
  let o := U.uvc_open s.ext s.dev_ s.devh_
  (o.1, ({ s with devh_ := o.2.1 }.withExt o.2.2).emit (.uvc_open s.dev_))

/-- The part of `OpenCamera` from the open device to the stream-format negotiation:
`mode_err`, `frame_width`, `frame_height` and the driver after the call of
`uvc_get_stream_ctrl_format_size`. -/
def OpenCamera_negotiated (U : Uvc σ) (s : CameraDriver σ) :
    Int × Int × Int × CameraDriver σ :=
  let s1 := s.emit (.getParam "width")
  let frame_width := (U.getParam_int s1.ext "width").getD 640
  let s2 := s1.emit (.getParam "height")
  let frame_height := (U.getParam_int s2.ext "height").getD 480
  let s3 := s2.emit (.getParam "frame_rate")
  let frame_rate := (U.getParam_double s3.ext "frame_rate").getD 1000
  let s4 := s3.emit (.getParam "video_mode")
  let video_mode := (U.getParam_str s4.ext "video_mode").getD "uncompressed"
  let vm := GetVideoMode video_mode
  let s5 :=
    if vm.2 then
      (s4.emit (.ros .error "Invalid Video Mode: " [video_mode] [])).emit
        (.ros .warn "Continue using video mode: uncompressed" [] [])
    else s4
  let m := U.uvc_get_stream_ctrl_format_size s5.ext s5.devh_ vm.1 frame_width frame_height
    frame_rate
  let s6 := (s5.withExt m.2).emit
    (.uvc_get_stream_ctrl_format_size s5.devh_ vm.1 frame_width frame_height frame_rate)
  (m.1, frame_width, frame_height, s6)

/-- The five tests of `OpenCamera`, each taken on the path on which the tests before it
have passed: `find_err`, the `dev_` left by the selection loop, `open_err`, `mode_err`
and `stream_err`. -/
structure OpenChecks where
  find_err : Int
  dev : Option Nat
  open_err : Int
  mode_err : Int
  stream_err : Int
  deriving DecidableEq, Repr

/-- Device lookup, selection by index, device open, stream-format negotiation and stream
start all succeed. -/
def OpenChecks.allPass (c : OpenChecks) : Prop :=
  c.find_err = 0 ∧ c.dev ≠ none ∧ c.open_err = 0 ∧ c.mode_err = 0 ∧ c.stream_err = 0

/-- The five tests of `OpenCamera` for the driver `s` in the world `U`. -/
def OpenCamera_checks (U : Uvc σ) (s : CameraDriver σ) : OpenChecks :=
  let l := OpenCamera_lookup U s
  let sel := selectDevice U l.2.2.1 l.2.1 0 { l.2.2.2 with dev_ := none }
  let o := OpenCamera_opened U sel
  let n := OpenCamera_negotiated U o.2
  let t := U.uvc_start_streaming n.2.2.2.ext n.2.2.2.devh_
  ⟨l.1, sel.dev_, o.1, n.1, t.1⟩

end Session

/-! ## Frame converter -/

section Converter

variable {σ : Type}

/-- The samples of `image->data` after `resize` to `n` zeroed samples and `memcpy` of the
frame data over them.  A copy past the end of the buffer is undefined in C++ and is not
modelled: the copy stops at the end of the buffer. -/
def copyFrame (n : Nat) (data : List Nat) : List Nat :=
  data.take n ++ List.replicate (n - data.length) 0

/-- The loop `for ( int i=0; i<image->height*image->width; i++ )` of `ImageCallback` over
the `count` first samples: each is replaced by its rescaled value.  An index past the end
of the buffer is undefined in C++ and is not modelled. -/
def rescaleLoop (count : Nat) (data : List Nat) : List Nat :=
  (data.take count).map rescaleSample ++ data.drop count

/-- The tail of `ImageCallback` once the image is built: it is published, the
temperatures are read and published, and a pending configuration is pushed back. -/
def ImageCallback_publish (K : Opcodes) (U : Uvc σ) (s : CameraDriver σ)
    (encoding : String) (width height step : Nat) (data : List Nat) (timestamp : Int × Int) :
    CameraDriver σ :=
  let s1 := s.emit (.getParam "frame_id")
  let frame_id := (U.getParam_str s1.ext "frame_id").getD ""
  let s2 := s1.call U (.publish_image encoding width height step data frame_id timestamp)
  let s3 := TOF_PublishTemperature K U s2 frame_id
  if s3.config_changed_ then
    { s3.call U (.updateConfig s3.config_) with config_changed_ := false }
  else s3

/-- `CameraDriver::ImageCallback`. -/
def ImageCallback (K : Opcodes) (U : Uvc σ) (s : CameraDriver σ) (frame : Frame) :
    CameraDriver σ :=
  let timestamp := if frame.capture_time = (0, 0) then U.now s.ext else frame.capture_time
  if s.state_ ≠ .kRunning ∨ s.rgb_frame_ = none then
    s
  else
    let s1 := s.emit (.getParam "width")
    let frame_width := (U.getParam_int s1.ext "width").getD U.uninit_int
    let s2 := s1.emit (.getParam "height")
    let frame_height := (U.getParam_int s2.ext "height").getD U.uninit_int
    -- the fields of `sensor_msgs::Image` are `uint32_t`
    let width := (frame_width % 2 ^ 32).toNat
    let height := (frame_height % 2 ^ 32).toNat
    if frame.frame_format = .GRAY16 then
      let step := width * 2 % 2 ^ 32
      let bytes := step * height % 2 ^ 32
      let data := copyFrame (bytes / 2) frame.data
      -- Ad-hoc: Change metric to mm
      let data1 := rescaleLoop (height * width % 2 ^ 32) data
      ImageCallback_publish K U s2 "16UC1" width height step data1 timestamp
    else
      let step := width * 3 % 2 ^ 32
      let bytes := step * height % 2 ^ 32
      let c := U.uvc_any2bgr s2.ext frame s2.rgb_frame_
      let s3 := (s2.withExt c.2.2).emit (.uvc_any2bgr s2.rgb_frame_)
      if c.1 ≠ 0 then
        s3.emit (.ros .error "Couldn't convert frame to RGB : Error.%d" [] [c.1])
      else
        let data := copyFrame bytes c.2.1
        ImageCallback_publish K U s3 "bgr8" width height step data timestamp

end Converter

/-! ## Observations on the record -/

/-- Whether an event is a control transaction (`uvc_set_ctrl` or `uvc_get_ctrl`). -/
def Event.isCtrl : Event → Bool
  | .uvc_set_ctrl _ _ _ => true
  | .uvc_get_ctrl _ _ _ => true
  | _ => false

/-- Whether an event is a publication (image or temperature). -/
def Event.isPublish : Event → Bool
  | .publish_image _ _ _ _ _ _ _ => true
  | .publish_temperature _ _ _ _ => true
  | _ => false

/-- The control transactions of a record, in order. -/
def ctrlOps (t : List Event) : List Event := t.filter Event.isCtrl

/-- The names read from the configuration source, in order. -/
def paramReads (t : List Event) : List String :=
  t.filterMap fun e =>
    match e with
    | .getParam n => some n
    | _ => none

/-- Fault-free transport for one set transaction started in world state `x`, as C2
describes it: the write of `send` is accepted in full, the priming write of `recv` is
accepted in full, the read is answered in full, and the answer carries in word 1 the
word 1 that was written. -/
def FaultFree {σ : Type} (U : Uvc σ) (x : σ) (devh : Option Nat) (send recv : Ctrl) : Prop :=
  (U.uvc_set_ctrl x devh send 10).1 = 10
  ∧ (U.uvc_set_ctrl (U.uvc_set_ctrl x devh send 10).2 devh recv 10).1 = 10
  ∧ (U.uvc_get_ctrl (U.uvc_set_ctrl (U.uvc_set_ctrl x devh send 10).2 devh recv 10).2
      devh recv 10).1 = 10
  ∧ (U.uvc_get_ctrl (U.uvc_set_ctrl (U.uvc_set_ctrl x devh send 10).2 devh recv 10).2
      devh recv 10).2.1.w1 = send.w1

/-! ## The specification's side of the claims -/

/-- The eight known parameters with the range of payload word 1, as the specification
lists them (C1): name, minimum, maximum. -/
def knownParams : List (String × Int × Int) :=
  [("depth_ir", 0, 1), ("depth_range", 0, 1), ("threshold", 0, 0x3FFF), ("nr_filter", 0, 1),
   ("pulse_count", 1, 2000), ("ld_enable", 0, 15), ("ir_gain", 0, 0x07FF),
   ("error_stop", 0, 1)]

/-- The value `v` saturated into `[lo, hi]`, in the words of the specification. -/
def clampSpec (lo hi v : Int) : Int :=
  if v < lo then lo else if v > hi then hi else v

/-- The rescaled depth value in the words of the specification: the raw sample
multiplied by `0.406615` and by `4.0` in exact arithmetic, truncated to an integer. -/
def rescaleSpec (raw : Nat) : Int := ⌊(raw : ℚ) * (406615 / 1000000) * 4⌋

/-- The temperature in the words of the specification: the raw 16-bit count divided by
`256` (Q8 fixed point). -/
def temperatureSpec (word : Nat) : ℚ := (word : ℚ) / 256

/-- The finite value denoted by a binary64 bit pattern (IEEE 754: sign in bit 63, biased
exponent in bits 62 to 52, fraction in bits 51 to 0).  The patterns of the infinities and
of the NaNs (exponent field `2047`) denote no number; the formula is applied to them all
the same. -/
def binary64Value (b : Nat) : ℚ :=
  let sign : ℕ := b / 2 ^ 63 % 2
  let e : ℕ := b / 2 ^ 52 % 2 ^ 11
  let m : ℕ := b % 2 ^ 52
  let mag : ℚ :=
    if e = 0 then (m : ℚ) / 2 ^ 1074 else ((2 ^ 52 + m : ℕ) : ℚ) * 2 ^ e / 2 ^ 1075
  if sign = 1 then -mag else mag

/-! ## A sample world

A concrete configuration source and register-file device, used to instantiate the general
theorems on concrete inputs.  The opcode values are an example assignment (set-opcodes
below `0x8000`, the matching get-opcode is the set-opcode plus `0x8000`). -/

section Sample

/-- An example assignment of the opcode constants. -/
def sampleOpcodes : Opcodes where
  TOF_SET_EEPROM := 0x0000
  TOF_SET_DEPTH_IR := 0x0001
  TOF_SET_DEPTH_RANGE := 0x0002
  TOF_SET_THRESHOLD := 0x0003
  TOF_SET_NR_FILTER := 0x0004
  TOF_SET_PULSE_COUNT := 0x0005
  TOF_SET_LD_ENABLE := 0x0006
  TOF_SET_IR_GAIN := 0x0009
  TOF_SET_ERROR_STOP := 0x0010
  TOF_SET_ERROR_CLEAR := 0x7F01
  TOF_GET_DEPTH_IR := 0x8001
  TOF_GET_DEPTH_RANGE := 0x8002
  TOF_GET_THRESHOLD := 0x8003
  TOF_GET_NR_FILTER := 0x8004
  TOF_GET_PULSE_COUNT := 0x8005
  TOF_GET_LD_ENABLE := 0x8006
  TOF_GET_DEPTH_CNV_GAIN := 0x8007
  TOF_GET_DEPTH_INFO := 0x8008
  TOF_GET_IR_GAIN := 0x8009
  TOF_GET_TEMPERATURE := 0x800A
  TOF_GET_ERROR_STOP := 0x8010
  TOF_GET_VERSION := 0xFF00
  TOF_GET_ERROR_INFO := 0xFF01
  TOF_EEPROM_FACTORY_DEFAULT := 0
  kReconfigureClose := 3

/-- State of the sample world: the integer parameters of the configuration source, the
device registers (opcode index, words 1 to 4), the register selected for reading, the
number of bytes the device accepts on the next control writes (one entry per write; the
full `size` once the list is used up), the string parameters, the devices on the bus and
the error codes with which device lookup, open, format negotiation and stream start
answer. -/
structure SampleWorld where
  params : List (String × Int)
  regs : List (Nat × Ctrl)
  selected : Nat
  accept : List Int
  strings : List (String × String)
  devices : List Nat
  find_err : Int
  open_err : Int
  mode_err : Int
  stream_err : Int
  deriving DecidableEq

/-- Register lookup of the sample device; an unwritten register reads as zero. -/
def SampleWorld.reg (x : SampleWorld) (k : Nat) : Ctrl :=
  match x.regs.lookup k with
  | some c => c
  | none => ⟨0, 0, 0, 0, 0⟩

/-- The number written by the leading decimal digits of a string, continuing from `acc`;
the `strtol` of the sample world. -/
def parseDigits : List Char → Nat → Nat
  | [], acc => acc
  | c :: cs, acc =>
    if 48 ≤ c.toNat ∧ c.toNat ≤ 57 then parseDigits cs (acc * 10 + (c.toNat - 48)) else acc

/-- The sample world: a write with a set-opcode stores words 1 to 4 in the register
of that opcode, a write with a get-opcode selects the register, and a read returns the
selected register behind the get-opcode.  A write is cut short when `accept` says so. -/
def sampleUvc : Uvc SampleWorld where
  uvc_set_ctrl := fun x _ data size =>
    match x.accept with
    | n :: rest =>
      if n = size then
        if data.w0 < 0x8000 then
          (size, { x with regs := (data.w0, data) :: x.regs, accept := rest })
        else
          (size, { x with selected := data.w0 - 0x8000, accept := rest })
      else
        (n, { x with accept := rest })
    | [] =>
      if data.w0 < 0x8000 then
        (size, { x with regs := (data.w0, data) :: x.regs })
      else
        (size, { x with selected := data.w0 - 0x8000 })
  uvc_get_ctrl := fun x _ data size =>
    (size, { x.reg x.selected with w0 := data.w0 }, x)
  getParam_int := fun x name => x.params.lookup name
  getParam_str := fun x name => x.strings.lookup name
  getParam_double := fun _ _ => none
  strtol := fun str => parseDigits str.data 0
  uvc_find_devices := fun x _ _ _ _ => (x.find_err, x.devices, x)
  uvc_open := fun x dev _ => (x.open_err, dev, x)
  uvc_get_stream_ctrl_format_size := fun x _ _ _ _ _ => (x.mode_err, x)
  uvc_start_streaming := fun x _ => (x.stream_err, x)
  uvc_allocate_frame := fun x _ => (some 7, x)
  uvc_any2bgr := fun x frame _ => (0, frame.data, x)
  effect := fun x _ => x
  now := fun _ => (1, 0)
  getName := fun _ => "/cis_camera"
  uninit_int := 0
  uninit_double := 0

/-- A driver in state `st` in front of the sample world `x`, with an empty record. -/
def sampleDriver (st : State) (x : SampleWorld) : CameraDriver SampleWorld where
  state_ := st
  ctx_ := some 1
  dev_ := some 1
  devh_ := some 1
  rgb_frame_ := some 1
  config_ := 0
  config_changed_ := false
  ext := x
  trace := []

/-- A sample world holding `threshold = 100000`, `pulse_count = 0` and a 2 by 2 image
size, with one device on the bus and no fault. -/
def sampleWorld : SampleWorld where
  params := [("threshold", 100000), ("pulse_count", 0), ("bogus", 7), ("width", 2),
    ("height", 2)]
  regs := []
  selected := 0
  accept := []
  strings := [("index", "0"), ("frame_id", "camera")]
  devices := [42]
  find_err := 0
  open_err := 0
  mode_err := 0
  stream_err := 0

/-- A 2 by 2 frame of 16-bit depth samples. -/
def sampleFrame : Frame where
  data := [1000, 40293, 40294, 65535]
  width := 2
  height := 2
  frame_format := .GRAY16
  capture_time := (0, 0)

/-- A sample world whose depth-conversion-gain register holds `word4` in word 4 and zero
in words 1 to 3. -/
def gainWorld (word4 : Nat) : SampleWorld :=
  { sampleWorld with regs := [(7, ⟨7, 0, 0, 0, word4⟩)] }

/-- The sample world with a device that refuses to be opened (`UVC_ERROR_ACCESS`). -/
def refusedWorld : SampleWorld := { sampleWorld with open_err := -3 }

end Sample

/-! ## Theorems : control channel and parameter registry -/

section RegistryProofs

variable {σ : Type}

@[simp] theorem emit_trace (s : CameraDriver σ) (e : Event) :
    (s.emit e).trace = s.trace ++ [e] := rfl

@[simp] theorem emit_devh (s : CameraDriver σ) (e : Event) : (s.emit e).devh_ = s.devh_ := rfl

@[simp] theorem emit_ext (s : CameraDriver σ) (e : Event) : (s.emit e).ext = s.ext := rfl

@[simp] theorem withExt_trace (s : CameraDriver σ) (x : σ) : (s.withExt x).trace = s.trace :=
  rfl

@[simp] theorem withExt_devh (s : CameraDriver σ) (x : σ) : (s.withExt x).devh_ = s.devh_ :=
  rfl

@[simp] theorem withExt_ext (s : CameraDriver σ) (x : σ) : (s.withExt x).ext = x := rfl

@[simp] theorem withExt_state (s : CameraDriver σ) (x : σ) :
    (s.withExt x).state_ = s.state_ := rfl

@[simp] theorem emit_state (s : CameraDriver σ) (e : Event) : (s.emit e).state_ = s.state_ :=
  rfl

theorem u16_of_range (x : Int) (h0 : 0 ≤ x) (h1 : x < 65536) : ((u16 x : Nat) : Int) = x := by
  unfold u16
  rw [Int.emod_eq_of_lt h0 h1]
  exact Int.toNat_of_nonneg h0

theorem TOF_SetCtrl_trace (U : Uvc σ) (s : CameraDriver σ) (data : Ctrl) (size : Int) :
    ∃ l, (TOF_SetCtrl U s data size).2.trace
      = s.trace ++ Event.uvc_set_ctrl s.devh_ data size :: l := by
  unfold TOF_SetCtrl
  by_cases h : (U.uvc_set_ctrl s.ext s.devh_ data size).1 = size
  · exact ⟨[], by simp [h]⟩
  · exact ⟨_, by simp [h]; rfl⟩

theorem TOF_GetCtrl_trace (U : Uvc σ) (s : CameraDriver σ) (data : Ctrl) (size : Int) :
    ∃ l, (TOF_GetCtrl U s data size).2.2.trace = s.trace ++ l := by
  obtain ⟨l, hl⟩ := TOF_SetCtrl_trace U s data size
  unfold TOF_GetCtrl
  simp only []
  split_ifs <;> simp [hl]

theorem dispatch_known (K : Opcodes) (name : String) (lo hi v : Int)
    (hk : (name, lo, hi) ∈ knownParams) :
    ∃ set_op get_op, dispatch K name v = some (branch K set_op get_op lo hi v) := by
  simp only [knownParams, List.mem_cons, Prod.mk.injEq, List.mem_singleton, List.not_mem_nil,
    or_false] at hk
  rcases hk with h | h | h | h | h | h | h | h <;> obtain ⟨rfl, rfl, rfl⟩ := h <;>
    (simp only [dispatch]; simp; exact ⟨_, _, rfl⟩)

theorem valueCheck_branch_bounds (K : Opcodes) (set_op get_op lo hi v : Int)
    (hlo : 0 ≤ lo) (hlh : lo ≤ hi) (hhi : hi < 65536) :
    let d := branch K set_op get_op lo hi v
    let send := valueCheck d.param_set d.param_min d.param_max
    (∀ i, i < 5 → d.param_min.get i ≤ (send.get i : Int) ∧ (send.get i : Int) ≤ d.param_max.get i)
      ∧ (send.w1 : Int) = clampSpec lo hi v := by
  intro d send
  have hw0 : 0 ≤ ((valueCheckWord d.param_set d.param_min d.param_max 0 : Nat) : Int) ∧
      ((valueCheckWord d.param_set d.param_min d.param_max 0 : Nat) : Int) ≤ 65535 := by
    simp only [valueCheckWord, d, branch, Arr5.get]
    split_ifs with h1 h2
    · simp [u16]
    · simp [u16]
    · rw [u16_of_range _ (by omega) (by omega)]; omega
  have hw1 : ((valueCheckWord d.param_set d.param_min d.param_max 1 : Nat) : Int)
      = clampSpec lo hi v := by
    simp only [valueCheckWord, d, branch, Arr5.get, clampSpec]
    split_ifs with h1 h2
    · exact u16_of_range _ hlo (by omega)
    · exact u16_of_range _ (by omega) hhi
    · exact u16_of_range _ (by omega) (by omega)
  have hc : lo ≤ clampSpec lo hi v ∧ clampSpec lo hi v ≤ hi := by
    unfold clampSpec; split_ifs <;> omega
  refine ⟨?_, hw1⟩
  intro i hi5
  have hz : ∀ j, 2 ≤ j → valueCheckWord d.param_set d.param_min d.param_max j = 0 ∨ True := by
    intro j _; exact Or.inr trivial
  rcases i with _ | _ | _ | _ | _ | i
  · simpa [send, valueCheck, Ctrl.get, d, branch, Arr5.get] using hw0
  · simp only [send, valueCheck, Ctrl.get]
    rw [hw1]; simpa [d, branch, Arr5.get] using hc
  · simp [send, valueCheck, Ctrl.get, valueCheckWord, d, branch, Arr5.get, u16]
  · simp [send, valueCheck, Ctrl.get, valueCheckWord, d, branch, Arr5.get, u16]
  · simp [send, valueCheck, Ctrl.get, valueCheckWord, d, branch, Arr5.get, u16]
  · omega

theorem knownParams_range (name : String) (lo hi : Int) (hk : (name, lo, hi) ∈ knownParams) :
    0 ≤ lo ∧ lo ≤ hi ∧ hi < 65536 := by
  simp only [knownParams, List.mem_cons, Prod.mk.injEq, List.mem_singleton, List.not_mem_nil,
    or_false] at hk
  rcases hk with h | h | h | h | h | h | h | h <;> obtain ⟨rfl, rfl, rfl⟩ := h <;> decide

theorem emit_extends (s : CameraDriver σ) (e : Event) : s.trace <+: (s.emit e).trace :=
  List.prefix_append _ _

theorem TOF_SetCtrl_extends (U : Uvc σ) (s : CameraDriver σ) (data : Ctrl) (size : Int) :
    s.trace ++ [Event.uvc_set_ctrl s.devh_ data size] <+: (TOF_SetCtrl U s data size).2.trace := by
  obtain ⟨l, hl⟩ := TOF_SetCtrl_trace U s data size
  exact ⟨l, by rw [hl]; simp⟩

theorem TOF_GetCtrl_extends (U : Uvc σ) (s : CameraDriver σ) (data : Ctrl) (size : Int) :
    s.trace <+: (TOF_GetCtrl U s data size).2.2.trace := by
  obtain ⟨l, hl⟩ := TOF_GetCtrl_trace U s data size
  exact ⟨l, hl.symm⟩

theorem SetMode_trace_known (K : Opcodes) (U : Uvc σ) (s : CameraDriver σ) (name : String)
    (v : Int) (d : Dispatch) (hv : U.getParam_int s.ext name = some v)
    (hd : dispatch K name v = some d) :
    ∃ rest, (TOF_SetMode_ROSParameter K U s name).2.trace
      = s.trace ++ Event.getParam name :: Event.uvc_set_ctrl s.devh_
          (valueCheck d.param_set d.param_min d.param_max) 10 :: rest := by
  have h1 := TOF_SetCtrl_extends U (s.emit (.getParam name))
    (valueCheck d.param_set d.param_min d.param_max) sizeofCtrl
  have key : s.trace ++ [Event.getParam name, Event.uvc_set_ctrl s.devh_
      (valueCheck d.param_set d.param_min d.param_max) 10]
      <+: (TOF_SetMode_ROSParameter K U s name).2.trace := by
    have h1' : s.trace ++ [Event.getParam name, Event.uvc_set_ctrl s.devh_
        (valueCheck d.param_set d.param_min d.param_max) 10]
        <+: (TOF_SetCtrl U (s.emit (.getParam name))
          (valueCheck d.param_set d.param_min d.param_max) sizeofCtrl).2.trace := by
      simpa [sizeofCtrl] using h1
    unfold TOF_SetMode_ROSParameter
    simp only [hv, hd]
    split_ifs
    · exact h1'.trans ((emit_extends _ _).trans ((TOF_GetCtrl_extends U _ _ _).trans
        (emit_extends _ _)))
    · exact h1'.trans ((emit_extends _ _).trans ((TOF_GetCtrl_extends U _ _ _).trans
        (emit_extends _ _)))
    · exact h1'.trans (emit_extends _ _)
  obtain ⟨rest, hrest⟩ := key
  exact ⟨rest, by rw [← hrest]; simp⟩

/-- C1. For each of the eight known parameters with range `[lo, hi]` and every requested
value `v` held by the configuration source, the first external action of
`TOF_SetMode_ROSParameter` after reading the configuration is the control write of a
buffer `send` of which every word `i` lies inside `[param_min[i], param_max[i]]`
(word 0 in `[0, 0xFFFF]`, word 1 in `[lo, hi]`, words 2 to 4 in `[0, 1]`) and of which
word 1 is `lo` when `v < lo`, `hi` when `v > hi`, and `v` otherwise. -/
theorem C1_payload_words_clamped (K : Opcodes) (U : Uvc σ) (s : CameraDriver σ)
    (name : String) (lo hi v : Int) (hk : (name, lo, hi) ∈ knownParams)
    (hv : U.getParam_int s.ext name = some v) :
    ∃ send rest,
      (TOF_SetMode_ROSParameter K U s name).2.trace
        = s.trace ++ Event.getParam name :: Event.uvc_set_ctrl s.devh_ send 10 :: rest
      ∧ (∀ i, i < 5 →
          (Arr5.mk 0 lo 0 0 0).get i ≤ (send.get i : Int)
            ∧ (send.get i : Int) ≤ (Arr5.mk 0xFFFF hi 1 1 1).get i)
      ∧ (send.w1 : Int) = (if v < lo then lo else if v > hi then hi else v) := by
  obtain ⟨set_op, get_op, hd⟩ := dispatch_known K name lo hi v hk
  obtain ⟨hlo, hlh, hhi⟩ := knownParams_range name lo hi hk
  have hb := valueCheck_branch_bounds K set_op get_op lo hi v hlo hlh hhi
  simp only [] at hb
  refine ⟨valueCheck (branch K set_op get_op lo hi v).param_set
    (branch K set_op get_op lo hi v).param_min (branch K set_op get_op lo hi v).param_max, ?_⟩
  have hfin := SetMode_trace_known K U s name v _ hv hd
  obtain ⟨rest, hrest⟩ := hfin
  refine ⟨rest, hrest, ?_, ?_⟩
  · intro i hi5
    have := hb.1 i hi5
    simpa [branch] using this
  · rw [hb.2]; rfl

/-- Witness of C1: `threshold` requested as `100000` in the sample world. -/
theorem C1_payload_words_clamped_witness :
    ("threshold", (0 : Int), (0x3FFF : Int)) ∈ knownParams
    ∧ sampleUvc.getParam_int (sampleDriver .kRunning sampleWorld).ext "threshold"
        = some 100000
    ∧ ∃ send rest,
      (TOF_SetMode_ROSParameter sampleOpcodes sampleUvc
          (sampleDriver .kRunning sampleWorld) "threshold").2.trace
        = (sampleDriver .kRunning sampleWorld).trace ++ Event.getParam "threshold" ::
            Event.uvc_set_ctrl (sampleDriver .kRunning sampleWorld).devh_ send 10 :: rest
      ∧ (∀ i, i < 5 →
          (Arr5.mk 0 0 0 0 0).get i ≤ (send.get i : Int)
            ∧ (send.get i : Int) ≤ (Arr5.mk 0xFFFF 0x3FFF 1 1 1).get i)
      ∧ (send.w1 : Int)
          = (if (100000 : Int) < 0 then 0 else if (100000 : Int) > 0x3FFF then 0x3FFF
              else 100000) :=
  ⟨by decide, by rfl,
    C1_payload_words_clamped sampleOpcodes sampleUvc (sampleDriver .kRunning sampleWorld)
      "threshold" 0 0x3FFF 100000 (by decide) (by rfl)⟩

theorem TOF_SetCtrl_full (U : Uvc σ) (s : CameraDriver σ) (data : Ctrl) (size : Int)
    (h : (U.uvc_set_ctrl s.ext s.devh_ data size).1 = size) :
    TOF_SetCtrl U s data size
      = (size, (s.withExt (U.uvc_set_ctrl s.ext s.devh_ data size).2).emit
          (.uvc_set_ctrl s.devh_ data size)) := by
  unfold TOF_SetCtrl
  simp [h]

theorem TOF_SetCtrl_short (U : Uvc σ) (s : CameraDriver σ) (data : Ctrl) (size : Int)
    (h : (U.uvc_set_ctrl s.ext s.devh_ data size).1 ≠ size) :
    TOF_SetCtrl U s data size
      = ((U.uvc_set_ctrl s.ext s.devh_ data size).1,
          ((s.withExt (U.uvc_set_ctrl s.ext s.devh_ data size).2).emit
            (.uvc_set_ctrl s.devh_ data size)).emit
            (.ros .error "Set Ctrl failed. Error: %d" []
              [(U.uvc_set_ctrl s.ext s.devh_ data size).1])) := by
  unfold TOF_SetCtrl
  simp [h]

theorem TOF_GetCtrl_full (U : Uvc σ) (s : CameraDriver σ) (data : Ctrl) (size : Int)
    (h1 : (U.uvc_set_ctrl s.ext s.devh_ data size).1 = size)
    (h2 : (U.uvc_get_ctrl (U.uvc_set_ctrl s.ext s.devh_ data size).2 s.devh_ data size).1
      = size) :
    TOF_GetCtrl U s data size
      = (size,
          (U.uvc_get_ctrl (U.uvc_set_ctrl s.ext s.devh_ data size).2 s.devh_ data size).2.1.norm,
          ((((s.withExt (U.uvc_set_ctrl s.ext s.devh_ data size).2).emit
            (.uvc_set_ctrl s.devh_ data size)).withExt
              (U.uvc_get_ctrl (U.uvc_set_ctrl s.ext s.devh_ data size).2 s.devh_ data
                size).2.2).emit (.uvc_get_ctrl s.devh_ data size))) := by
  unfold TOF_GetCtrl
  rw [TOF_SetCtrl_full U s data size h1]
  simp [h2]

/-- Counterexample to C2 as stated: in the fault-free sample world the device echoes
`16383` for `threshold` requested as `100000`, the echo is only written to the console,
and the value returned by `TOF_SetMode_ROSParameter` is `10`, the size of the
transaction, not the echoed value. -/
theorem C2_counterexample :
    FaultFree sampleUvc sampleWorld (some 1) ⟨3, 16383, 0, 0, 0⟩ ⟨0x8003, 0, 0, 0, 0⟩
    ∧ (TOF_SetMode_ROSParameter sampleOpcodes sampleUvc
        (sampleDriver .kRunning sampleWorld) "threshold").2.trace.getLast?
      = some (Event.ros .info "Get Parameter %s as \x7b %d, %d, %d, %d \x7d on TOF Camera"
          ["threshold"] [16383, 0, 0, 0])
    ∧ (TOF_SetMode_ROSParameter sampleOpcodes sampleUvc
        (sampleDriver .kRunning sampleWorld) "threshold").1 = 10
    ∧ (TOF_SetMode_ROSParameter sampleOpcodes sampleUvc
        (sampleDriver .kRunning sampleWorld) "threshold").1 ≠ 16383 := by
  refine ⟨?_, ?_, ?_, ?_⟩
  · unfold FaultFree; decide
  · decide
  · decide
  · decide

/-- C2 (amended). For every known parameter with range `[lo, hi]` and every requested
value `v`, under a fault-free transport `TOF_SetMode_ROSParameter` returns `10`, the full
size of the transaction, and its last action is the console message that reports the
words echoed by the verifying read, of which word 1 equals `v` clamped into `[lo, hi]`. -/
theorem C2_fault_free_returns_size_logs_echo (K : Opcodes) (U : Uvc σ) (s : CameraDriver σ)
    (name : String) (lo hi v : Int) (hk : (name, lo, hi) ∈ knownParams)
    (hv : U.getParam_int s.ext name = some v)
    (hff : ∀ d, dispatch K name v = some d →
      FaultFree U s.ext s.devh_ (valueCheck d.param_set d.param_min d.param_max) d.recv) :
    (TOF_SetMode_ROSParameter K U s name).1 = 10
    ∧ ∃ r2 r3 r4, (TOF_SetMode_ROSParameter K U s name).2.trace.getLast?
        = some (Event.ros .info "Get Parameter %s as \x7b %d, %d, %d, %d \x7d on TOF Camera"
            [name] [(if v < lo then lo else if v > hi then hi else v), r2, r3, r4]) := by
  obtain ⟨set_op, get_op, hd⟩ := dispatch_known K name lo hi v hk
  obtain ⟨hlo, hlh, hhi⟩ := knownParams_range name lo hi hk
  have hb := (valueCheck_branch_bounds K set_op get_op lo hi v hlo hlh hhi).2
  have hc : lo ≤ clampSpec lo hi v ∧ clampSpec lo hi v ≤ hi := by
    unfold clampSpec; split_ifs <;> omega
  have hf := hff _ hd
  simp only [] at hb
  generalize branch K set_op get_op lo hi v = d at hd hb hf
  generalize hsend : valueCheck d.param_set d.param_min d.param_max = send at hb hf
  obtain ⟨f1, f2, f3, f4⟩ := hf
  have hw1 : send.w1 % 65536 = send.w1 := Nat.mod_eq_of_lt (by omega)
  have e1 := TOF_SetCtrl_full U (s.emit (.getParam name)) send sizeofCtrl
    (by simpa [sizeofCtrl] using f1)
  have e2 := TOF_GetCtrl_full U
    ((((s.emit (.getParam name)).withExt (U.uvc_set_ctrl (s.emit (.getParam name)).ext
        (s.emit (.getParam name)).devh_ send sizeofCtrl).2).emit
          (.uvc_set_ctrl (s.emit (.getParam name)).devh_ send sizeofCtrl)).emit
      (.ros .info "Set Parameter %s as \x7b %d, %d, %d, %d \x7d on TOF Camera" [name]
        [(send.w1 : Int), (send.w2 : Int), (send.w3 : Int), (send.w4 : Int)]))
    d.recv sizeofCtrl (by simpa [sizeofCtrl] using f2) (by simpa [sizeofCtrl] using f3)
  unfold TOF_SetMode_ROSParameter
  simp only [hv, hd, hsend]
  rw [e1]
  simp only [if_true]
  rw [e2]
  simp only [if_true, emit_trace, List.getLast?_append, List.getLast?_singleton,
    Option.or_some, emit_ext, emit_devh, withExt_ext, withExt_devh, sizeofCtrl, Ctrl.norm,
    f4, hw1, hb, clampSpec]
  exact ⟨trivial, _, _, _, rfl⟩

/-- Witness of C2 (amended): `threshold` requested as `100000` in the fault-free sample
world. -/
theorem C2_fault_free_returns_size_logs_echo_witness :
    ("threshold", (0 : Int), (0x3FFF : Int)) ∈ knownParams
    ∧ sampleUvc.getParam_int (sampleDriver .kRunning sampleWorld).ext "threshold"
        = some 100000
    ∧ (∀ d, dispatch sampleOpcodes "threshold" 100000 = some d →
        FaultFree sampleUvc (sampleDriver .kRunning sampleWorld).ext
          (sampleDriver .kRunning sampleWorld).devh_
          (valueCheck d.param_set d.param_min d.param_max) d.recv)
    ∧ (TOF_SetMode_ROSParameter sampleOpcodes sampleUvc
        (sampleDriver .kRunning sampleWorld) "threshold").1 = 10
    ∧ ∃ r2 r3 r4, (TOF_SetMode_ROSParameter sampleOpcodes sampleUvc
        (sampleDriver .kRunning sampleWorld) "threshold").2.trace.getLast?
        = some (Event.ros .info "Get Parameter %s as \x7b %d, %d, %d, %d \x7d on TOF Camera"
            ["threshold"] [(if (100000 : Int) < 0 then 0 else if (100000 : Int) > 0x3FFF
              then 0x3FFF else 100000), r2, r3, r4]) :=
  have hff : ∀ d, dispatch sampleOpcodes "threshold" 100000 = some d →
      FaultFree sampleUvc (sampleDriver .kRunning sampleWorld).ext
        (sampleDriver .kRunning sampleWorld).devh_
        (valueCheck d.param_set d.param_min d.param_max) d.recv := by
    intro d hd
    have hd' : d = branch sampleOpcodes 3 0x8003 0 0x3FFF 100000 := by
      simp only [dispatch] at hd
      simp at hd
      exact hd.symm
    subst hd'
    unfold FaultFree
    decide
  ⟨by decide, by rfl, hff,
    C2_fault_free_returns_size_logs_echo sampleOpcodes sampleUvc
      (sampleDriver .kRunning sampleWorld) "threshold" 0 0x3FFF 100000 (by decide) (by rfl)
      hff⟩

/-- C3. For every known parameter and requested value, when the control write of the
payload returns anything other than its full size `10`, `TOF_SetMode_ROSParameter` returns
that write result (never the success result `10`), and it makes no further control
transaction: after the read of the configuration source its record holds the one
`uvc_set_ctrl` call and two error messages, no `uvc_get_ctrl` and no second write. -/
theorem C3_short_write_fails_without_read (K : Opcodes) (U : Uvc σ) (s : CameraDriver σ)
    (name : String) (lo hi v : Int) (hk : (name, lo, hi) ∈ knownParams)
    (hv : U.getParam_int s.ext name = some v)
    (hshort : ∀ d, dispatch K name v = some d →
      (U.uvc_set_ctrl s.ext s.devh_ (valueCheck d.param_set d.param_min d.param_max) 10).1
        ≠ 10) :
    ∃ send,
      (TOF_SetMode_ROSParameter K U s name).1 = (U.uvc_set_ctrl s.ext s.devh_ send 10).1
      ∧ (TOF_SetMode_ROSParameter K U s name).1 ≠ 10
      ∧ (TOF_SetMode_ROSParameter K U s name).2.ext = (U.uvc_set_ctrl s.ext s.devh_ send 10).2
      ∧ (TOF_SetMode_ROSParameter K U s name).2.trace
          = s.trace ++ [Event.getParam name, Event.uvc_set_ctrl s.devh_ send 10,
              Event.ros .error "Set Ctrl failed. Error: %d" []
                [(U.uvc_set_ctrl s.ext s.devh_ send 10).1],
              Event.ros .error "Set Parameter %s failed. Error: %d" [name]
                [(U.uvc_set_ctrl s.ext s.devh_ send 10).1]]
      ∧ ctrlOps (TOF_SetMode_ROSParameter K U s name).2.trace
          = ctrlOps s.trace ++ [Event.uvc_set_ctrl s.devh_ send 10] := by
  obtain ⟨set_op, get_op, hd⟩ := dispatch_known K name lo hi v hk
  have hs := hshort _ hd
  generalize branch K set_op get_op lo hi v = d at hd hs
  generalize hsend : valueCheck d.param_set d.param_min d.param_max = send at hs
  have e1 := TOF_SetCtrl_short U (s.emit (.getParam name)) send sizeofCtrl
    (by simpa [sizeofCtrl] using hs)
  refine ⟨send, ?_⟩
  unfold TOF_SetMode_ROSParameter
  simp only [hv, hd, hsend]
  rw [e1]
  simp only [emit_ext, emit_devh, sizeofCtrl, hs, if_false, emit_trace, withExt_trace,
    withExt_ext, List.append_assoc, List.cons_append, List.nil_append, ne_eq,
    not_false_eq_true, true_and, and_self, ctrlOps, List.filter_append, List.filter_cons,
    List.filter_nil, Event.isCtrl, if_true, List.append_nil, Bool.false_eq_true]

/-- Witness of C3: in the sample world the device accepts `6` of the `10` bytes (3 of the
5 words) of the `threshold` write. -/
theorem C3_short_write_fails_without_read_witness :
    ("threshold", (0 : Int), (0x3FFF : Int)) ∈ knownParams
    ∧ sampleUvc.getParam_int
        (sampleDriver .kRunning { sampleWorld with accept := [6] }).ext "threshold"
        = some 100000
    ∧ ∃ send,
      (TOF_SetMode_ROSParameter sampleOpcodes sampleUvc
          (sampleDriver .kRunning { sampleWorld with accept := [6] }) "threshold").1
        = (sampleUvc.uvc_set_ctrl (sampleDriver .kRunning { sampleWorld with accept := [6] }).ext
            (sampleDriver .kRunning { sampleWorld with accept := [6] }).devh_ send 10).1
      ∧ (TOF_SetMode_ROSParameter sampleOpcodes sampleUvc
          (sampleDriver .kRunning { sampleWorld with accept := [6] }) "threshold").1 ≠ 10
      ∧ (TOF_SetMode_ROSParameter sampleOpcodes sampleUvc
          (sampleDriver .kRunning { sampleWorld with accept := [6] }) "threshold").2.ext
        = (sampleUvc.uvc_set_ctrl (sampleDriver .kRunning { sampleWorld with accept := [6] }).ext
            (sampleDriver .kRunning { sampleWorld with accept := [6] }).devh_ send 10).2
      ∧ (TOF_SetMode_ROSParameter sampleOpcodes sampleUvc
          (sampleDriver .kRunning { sampleWorld with accept := [6] }) "threshold").2.trace
          = (sampleDriver .kRunning { sampleWorld with accept := [6] }).trace ++
            [Event.getParam "threshold",
              Event.uvc_set_ctrl
                (sampleDriver .kRunning { sampleWorld with accept := [6] }).devh_ send 10,
              Event.ros .error "Set Ctrl failed. Error: %d" []
                [(sampleUvc.uvc_set_ctrl
                  (sampleDriver .kRunning { sampleWorld with accept := [6] }).ext
                  (sampleDriver .kRunning { sampleWorld with accept := [6] }).devh_ send 10).1],
              Event.ros .error "Set Parameter %s failed. Error: %d" ["threshold"]
                [(sampleUvc.uvc_set_ctrl
                  (sampleDriver .kRunning { sampleWorld with accept := [6] }).ext
                  (sampleDriver .kRunning { sampleWorld with accept := [6] }).devh_ send 10).1]]
      ∧ ctrlOps (TOF_SetMode_ROSParameter sampleOpcodes sampleUvc
          (sampleDriver .kRunning { sampleWorld with accept := [6] }) "threshold").2.trace
          = ctrlOps (sampleDriver .kRunning { sampleWorld with accept := [6] }).trace ++
            [Event.uvc_set_ctrl
              (sampleDriver .kRunning { sampleWorld with accept := [6] }).devh_ send 10] :=
  ⟨by decide, by rfl,
    C3_short_write_fails_without_read sampleOpcodes sampleUvc
      (sampleDriver .kRunning { sampleWorld with accept := [6] }) "threshold" 0 0x3FFF 100000
      (by decide) (by rfl) (by
        intro d hd
        have hd' : d = branch sampleOpcodes 3 0x8003 0 0x3FFF 100000 := by
          simp only [dispatch] at hd
          simp at hd
          exact hd.symm
        subst hd'
        decide)⟩

theorem SetMode_missing (K : Opcodes) (U : Uvc σ) (s : CameraDriver σ) (name : String)
    (hv : U.getParam_int s.ext name = none) :
    TOF_SetMode_ROSParameter K U s name
      = (0, (s.emit (.getParam name)).emit
          (.ros .error "Parameter Acquisition Error : %s" [name] [])) := by
  unfold TOF_SetMode_ROSParameter
  simp only [hv]

theorem SetMode_unmatched (K : Opcodes) (U : Uvc σ) (s : CameraDriver σ) (name : String)
    (v : Int) (hv : U.getParam_int s.ext name = some v) (hd : dispatch K name v = none) :
    TOF_SetMode_ROSParameter K U s name
      = (0, (s.emit (.getParam name)).emit
          (.ros .warn "Unmatch Parameter Name : %s" [name] [])) := by
  unfold TOF_SetMode_ROSParameter
  simp only [hv, hd]

theorem dispatch_unknown (K : Opcodes) (name : String) (v : Int)
    (hn : name ∉ rosparam_names) : dispatch K name v = none := by
  simp only [rosparam_names, List.mem_cons, List.mem_singleton, List.not_mem_nil, or_false,
    not_or] at hn
  obtain ⟨h1, h2, h3, h4, h5, h6, h7, h8⟩ := hn
  simp [dispatch, h1, h2, h3, h4, h5, h6, h7, h8]

/-- C4. For every parameter name that is not one of the eight known names, whether or not
the configuration source holds a value for it, `TOF_SetMode_ROSParameter` returns `0`
(not the success result `10`), leaves the state of the outside world untouched, and
records nothing but the read of the configuration source and one console message: no
control write and no control read. -/
theorem C4_unknown_name_no_transaction (K : Opcodes) (U : Uvc σ) (s : CameraDriver σ)
    (name : String) (hn : name ∉ rosparam_names) :
    (TOF_SetMode_ROSParameter K U s name).1 = 0
    ∧ (TOF_SetMode_ROSParameter K U s name).1 ≠ 10
    ∧ (TOF_SetMode_ROSParameter K U s name).2.ext = s.ext
    ∧ (∃ lvl text, (TOF_SetMode_ROSParameter K U s name).2.trace
        = s.trace ++ [Event.getParam name, Event.ros lvl text [name] []])
    ∧ ctrlOps (TOF_SetMode_ROSParameter K U s name).2.trace = ctrlOps s.trace := by
  cases hv : U.getParam_int s.ext name with
  | none =>
    rw [SetMode_missing K U s name hv]
    refine ⟨rfl, by simp, rfl, ⟨Level.error, "Parameter Acquisition Error : %s", by simp⟩, ?_⟩
    simp [ctrlOps, List.filter_append, List.filter_cons, Event.isCtrl]
  | some v =>
    rw [SetMode_unmatched K U s name v hv (dispatch_unknown K name v hn)]
    refine ⟨rfl, by simp, rfl, ⟨Level.warn, "Unmatch Parameter Name : %s", by simp⟩, ?_⟩
    simp [ctrlOps, List.filter_append, List.filter_cons, Event.isCtrl]

/-- Witness of C4: the name `bogus`, for which the sample configuration source holds a
value. -/
theorem C4_unknown_name_no_transaction_witness :
    "bogus" ∉ rosparam_names
    ∧ (TOF_SetMode_ROSParameter sampleOpcodes sampleUvc
        (sampleDriver .kRunning sampleWorld) "bogus").1 = 0
    ∧ (TOF_SetMode_ROSParameter sampleOpcodes sampleUvc
        (sampleDriver .kRunning sampleWorld) "bogus").1 ≠ 10
    ∧ (TOF_SetMode_ROSParameter sampleOpcodes sampleUvc
        (sampleDriver .kRunning sampleWorld) "bogus").2.ext
        = (sampleDriver .kRunning sampleWorld).ext
    ∧ (∃ lvl text, (TOF_SetMode_ROSParameter sampleOpcodes sampleUvc
        (sampleDriver .kRunning sampleWorld) "bogus").2.trace
        = (sampleDriver .kRunning sampleWorld).trace
            ++ [Event.getParam "bogus", Event.ros lvl text ["bogus"] []])
    ∧ ctrlOps (TOF_SetMode_ROSParameter sampleOpcodes sampleUvc
        (sampleDriver .kRunning sampleWorld) "bogus").2.trace
        = ctrlOps (sampleDriver .kRunning sampleWorld).trace :=
  ⟨by decide,
    C4_unknown_name_no_transaction sampleOpcodes sampleUvc
      (sampleDriver .kRunning sampleWorld) "bogus" (by decide)⟩

/-- C9. For every buffer `data` and size, `TOF_GetCtrl` first issues the control write of
`data`.  When that priming write does not return the full size, no control read is issued
and the value returned is the result of the priming write; when it does, exactly one
control read of the same buffer follows and the value returned is the result of that
read. -/
theorem C9_read_primed_by_write (U : Uvc σ) (s : CameraDriver σ) (data : Ctrl) (size : Int) :
    ctrlOps (TOF_GetCtrl U s data size).2.2.trace
      = ctrlOps s.trace ++
        (if (U.uvc_set_ctrl s.ext s.devh_ data size).1 = size then
          [Event.uvc_set_ctrl s.devh_ data size, Event.uvc_get_ctrl s.devh_ data size]
        else
          [Event.uvc_set_ctrl s.devh_ data size])
    ∧ (TOF_GetCtrl U s data size).1
      = (if (U.uvc_set_ctrl s.ext s.devh_ data size).1 = size then
          (U.uvc_get_ctrl (U.uvc_set_ctrl s.ext s.devh_ data size).2 s.devh_ data size).1
        else
          (U.uvc_set_ctrl s.ext s.devh_ data size).1)
    ∧ (TOF_GetCtrl U s data size).2.2.ext
      = (if (U.uvc_set_ctrl s.ext s.devh_ data size).1 = size then
          (U.uvc_get_ctrl (U.uvc_set_ctrl s.ext s.devh_ data size).2 s.devh_ data size).2.2
        else
          (U.uvc_set_ctrl s.ext s.devh_ data size).2) := by
  by_cases h : (U.uvc_set_ctrl s.ext s.devh_ data size).1 = size
  · unfold TOF_GetCtrl
    rw [TOF_SetCtrl_full U s data size h]
    simp only [h, ne_eq, not_true_eq_false, if_false, if_true, emit_ext, emit_devh,
      withExt_ext, withExt_devh]
    split_ifs <;>
      simp [ctrlOps, List.filter_append, List.filter_cons, Event.isCtrl]
  · unfold TOF_GetCtrl
    rw [TOF_SetCtrl_short U s data size h]
    simp [h, ctrlOps, List.filter_append, List.filter_cons, Event.isCtrl]

theorem paramReads_append (t u : List Event) :
    paramReads (t ++ u) = paramReads t ++ paramReads u := by
  simp [paramReads, List.filterMap_append]

theorem paramReads_SetCtrl (U : Uvc σ) (s : CameraDriver σ) (data : Ctrl) (size : Int) :
    paramReads (TOF_SetCtrl U s data size).2.trace = paramReads s.trace := by
  unfold TOF_SetCtrl
  simp only []
  split_ifs <;> simp [paramReads_append, paramReads]

theorem paramReads_GetCtrl (U : Uvc σ) (s : CameraDriver σ) (data : Ctrl) (size : Int) :
    paramReads (TOF_GetCtrl U s data size).2.2.trace = paramReads s.trace := by
  have h := paramReads_SetCtrl U s data size
  unfold TOF_GetCtrl
  simp only []
  split_ifs <;> simp [paramReads_append, h] <;> simp [paramReads]

theorem paramReads_SetMode (K : Opcodes) (U : Uvc σ) (s : CameraDriver σ) (name : String) :
    paramReads (TOF_SetMode_ROSParameter K U s name).2.trace
      = paramReads s.trace ++ [name] := by
  have hs : paramReads (s.emit (.getParam name)).trace = paramReads s.trace ++ [name] := by
    simp [paramReads_append, paramReads]
  cases hv : U.getParam_int s.ext name with
  | none =>
    rw [SetMode_missing K U s name hv]
    simp [paramReads_append, paramReads]
  | some v =>
    cases hd : dispatch K name v with
    | none =>
      rw [SetMode_unmatched K U s name v hv hd]
      simp [paramReads_append, paramReads]
    | some d =>
      unfold TOF_SetMode_ROSParameter
      simp only [hv, hd]
      split_ifs
      · rw [emit_trace, paramReads_append, paramReads_GetCtrl, emit_trace, paramReads_append,
          paramReads_SetCtrl, hs]
        simp [paramReads]
      · rw [emit_trace, paramReads_append, paramReads_GetCtrl, emit_trace, paramReads_append,
          paramReads_SetCtrl, hs]
        simp [paramReads]
      · rw [emit_trace, paramReads_append, paramReads_SetCtrl, hs]
        simp [paramReads]

theorem paramReads_SetMode_All_loop (K : Opcodes) (U : Uvc σ) (names : List String) :
    ∀ (i : Nat) (s : CameraDriver σ),
      paramReads (TOF_SetMode_All_loop K U names i s).trace = paramReads s.trace ++ names := by
  induction names with
  | nil => intro i s; simp [TOF_SetMode_All_loop]
  | cons n rest ih =>
    intro i s
    simp only [TOF_SetMode_All_loop]
    rw [ih, paramReads_SetMode, emit_trace, paramReads_append]
    simp [paramReads]

/-- C10. Whatever the configuration source holds and whatever the device answers,
`TOF_SetMode_All` starts the set operation (whose first action is the read of the
parameter from the configuration source) once for each of the eight known parameters,
in the order `depth_ir`, `depth_range`, `threshold`, `nr_filter`, `pulse_count`,
`ld_enable`, `ir_gain`, `error_stop`; no failure stops the later ones. -/
theorem C10_set_all_attempts_each_once_in_order (K : Opcodes) (U : Uvc σ)
    (s : CameraDriver σ) :
    paramReads (TOF_SetMode_All K U s).trace
      = paramReads s.trace ++ ["depth_ir", "depth_range", "threshold", "nr_filter",
          "pulse_count", "ld_enable", "ir_gain", "error_stop"] := by
  unfold TOF_SetMode_All
  rw [paramReads_SetMode_All_loop]
  rfl

end RegistryProofs

/-! ## Theorems : binary64 arithmetic -/

section ArithmeticProofs

theorem roundHalfEven_err (y : ℚ) : |(roundHalfEven y : ℚ) - y| ≤ 1 / 2 := by
  have h1 : (⌊y⌋ : ℚ) ≤ y := Int.floor_le y
  have h2 : y < ⌊y⌋ + 1 := Int.lt_floor_add_one y
  unfold roundHalfEven
  simp only []
  rw [abs_le]
  split_ifs with a b c
  · constructor <;> linarith
  · push_cast; constructor <;> linarith
  · constructor <;> linarith
  · push_cast; constructor <;> linarith

theorem roundHalfEven_intCast (z : ℤ) : roundHalfEven (z : ℚ) = z := by
  unfold roundHalfEven
  simp

/-- Rounding to binary64 has relative error at most `2^-53`. -/
theorem fl_err (x : ℚ) (hx : 0 < x) : |fl x - x| ≤ x * (1 / 2 ^ 53) := by
  have hne : x ≠ 0 := ne_of_gt hx
  have habs : |x| = x := abs_of_pos hx
  have hlog : (2 : ℚ) ^ (Int.log 2 x) ≤ x := by
    have := Int.zpow_log_le_self (b := 2) (by norm_num) hx
    simpa using this
  unfold fl
  simp only [hne, if_false, habs]
  set u : ℤ := Int.log 2 x - 52 with hu
  have hpos : (0 : ℚ) < 2 ^ u := zpow_pos (by norm_num) u
  have he := roundHalfEven_err (x / 2 ^ u)
  have h1 : (roundHalfEven (x / 2 ^ u) : ℚ) * 2 ^ u - x
      = ((roundHalfEven (x / 2 ^ u) : ℚ) - x / 2 ^ u) * 2 ^ u := by
    field_simp
  rw [h1, abs_mul, abs_of_pos hpos]
  have h2 : (2 : ℚ) ^ u = 2 ^ (Int.log 2 x) * (1 / 2 ^ 52) := by
    rw [hu, zpow_sub₀ (by norm_num : (2 : ℚ) ≠ 0)]
    norm_num [div_eq_mul_inv]
  calc |(roundHalfEven (x / 2 ^ u) : ℚ) - x / 2 ^ u| * 2 ^ u
      ≤ 1 / 2 * 2 ^ u := by
        exact mul_le_mul_of_nonneg_right he (le_of_lt hpos)
    _ = 2 ^ (Int.log 2 x) * (1 / 2 ^ 53) := by rw [h2]; ring
    _ ≤ x * (1 / 2 ^ 53) := by
        exact mul_le_mul_of_nonneg_right hlog (by positivity)

/-- A value with at most 53 significant bits is a binary64 value: rounding keeps it. -/
theorem fl_exact (m : ℕ) (j : ℤ) (hm : m < 2 ^ 53) :
    fl ((m : ℚ) * 2 ^ j) = (m : ℚ) * 2 ^ j := by
  by_cases h0 : m = 0
  · subst h0; simp [fl]
  have hmpos : (0 : ℚ) < m := by exact_mod_cast Nat.pos_of_ne_zero h0
  have h2pos : (0 : ℚ) < 2 ^ j := zpow_pos (by norm_num) j
  have hx : (0 : ℚ) < (m : ℚ) * 2 ^ j := mul_pos hmpos h2pos
  have hne : (m : ℚ) * 2 ^ j ≠ 0 := ne_of_gt hx
  unfold fl
  simp only [hne, if_false, abs_of_pos hx]
  set u : ℤ := Int.log 2 ((m : ℚ) * 2 ^ j) - 52 with hu
  have hlog : (2 : ℚ) ^ (Int.log 2 ((m : ℚ) * 2 ^ j)) ≤ (m : ℚ) * 2 ^ j := by
    have := Int.zpow_log_le_self (b := 2) (by norm_num) hx
    simpa using this
  have hlt : (m : ℚ) * 2 ^ j < 2 ^ (53 + j) := by
    rw [zpow_add₀ (by norm_num : (2 : ℚ) ≠ 0)]
    apply mul_lt_mul_of_pos_right _ h2pos
    exact_mod_cast hm
  have hl : Int.log 2 ((m : ℚ) * 2 ^ j) < 53 + j := by
    have := lt_of_le_of_lt hlog hlt
    exact (zpow_lt_zpow_iff_right₀ (by norm_num : (1 : ℚ) < 2)).1 this
  have huj : u ≤ j := by omega
  obtain ⟨k, hk⟩ : ∃ k : ℕ, j = u + k := ⟨(j - u).toNat, by omega⟩
  have hupos : (0 : ℚ) < 2 ^ u := zpow_pos (by norm_num) u
  have hj : (2 : ℚ) ^ j = 2 ^ u * 2 ^ k := by
    rw [hk, zpow_add₀ (by norm_num : (2 : ℚ) ≠ 0), zpow_natCast]
  have hq : (m : ℚ) * 2 ^ j / 2 ^ u = ((m * 2 ^ k : ℕ) : ℤ) := by
    rw [hj]
    field_simp
    ring
  rw [hq, roundHalfEven_intCast, hj]
  push_cast
  ring

theorem fl_natCast (n : ℕ) (hn : n < 2 ^ 53) : fl (n : ℚ) = n := by
  have := fl_exact n 0 hn
  simpa using this

theorem fl_bounds (x : ℚ) (hx : 0 < x) :
    x * (1 - 1 / 2 ^ 53) ≤ fl x ∧ fl x ≤ x * (1 + 1 / 2 ^ 53) := by
  have h := abs_le.1 (fl_err x hx)
  constructor <;> linarith [h.1, h.2]

/-- The double computed by `data[i]*0.406615*4.0` lies within three roundings of the
exact product. -/
theorem rescale_double_bounds (r : ℕ) (h1 : 1 ≤ r) (h2 : r < 65536) :
    (r : ℚ) * (406615 / 1000000 * (1 - 1 / 2 ^ 53)) * (1 - 1 / 2 ^ 53) * 4 * (1 - 1 / 2 ^ 53)
        ≤ fl (fl (fl (r : ℚ) * fl (406615 / 1000000)) * fl 4)
    ∧ fl (fl (fl (r : ℚ) * fl (406615 / 1000000)) * fl 4)
        ≤ (r : ℚ) * (406615 / 1000000 * (1 + 1 / 2 ^ 53)) * (1 + 1 / 2 ^ 53) * 4
            * (1 + 1 / 2 ^ 53) := by
  have hR1 : (1 : ℚ) ≤ r := by exact_mod_cast h1
  have hRpos : (0 : ℚ) < r := by linarith
  obtain ⟨hc1, hc2⟩ := fl_bounds (406615 / 1000000) (by norm_num)
  set c : ℚ := fl (406615 / 1000000) with hc
  have hcpos : 0 < c := by
    have : (0 : ℚ) < 406615 / 1000000 * (1 - 1 / 2 ^ 53) := by norm_num
    linarith
  have hfr : fl (r : ℚ) = r := fl_natCast r (by omega)
  have hf4 : fl (4 : ℚ) = 4 := by
    have := fl_natCast 4 (by norm_num)
    simpa using this
  obtain ⟨hp1, hp2⟩ := fl_bounds ((r : ℚ) * c) (mul_pos hRpos hcpos)
  set p : ℚ := fl ((r : ℚ) * c) with hp
  have hrc1 : (r : ℚ) * (406615 / 1000000 * (1 - 1 / 2 ^ 53)) ≤ r * c :=
    mul_le_mul_of_nonneg_left hc1 (le_of_lt hRpos)
  have hrc2 : (r : ℚ) * c ≤ r * (406615 / 1000000 * (1 + 1 / 2 ^ 53)) :=
    mul_le_mul_of_nonneg_left hc2 (le_of_lt hRpos)
  have hP1 : (r : ℚ) * (406615 / 1000000 * (1 - 1 / 2 ^ 53)) * (1 - 1 / 2 ^ 53) ≤ p := by
    refine le_trans ?_ hp1
    exact mul_le_mul_of_nonneg_right hrc1 (by norm_num)
  have hP2 : p ≤ (r : ℚ) * (406615 / 1000000 * (1 + 1 / 2 ^ 53)) * (1 + 1 / 2 ^ 53) := by
    refine le_trans hp2 ?_
    exact mul_le_mul_of_nonneg_right hrc2 (by norm_num)
  have hppos : 0 < p := by
    have : (0 : ℚ) < (r : ℚ) * (406615 / 1000000 * (1 - 1 / 2 ^ 53)) * (1 - 1 / 2 ^ 53) := by
      apply mul_pos (mul_pos hRpos (by norm_num)) (by norm_num)
    linarith
  obtain ⟨hy1, hy2⟩ := fl_bounds (p * 4) (by linarith)
  rw [hfr, hf4]
  constructor
  · refine le_trans ?_ hy1
    apply mul_le_mul_of_nonneg_right _ (by norm_num)
    linarith
  · refine le_trans hy2 ?_
    apply mul_le_mul_of_nonneg_right _ (by norm_num)
    linarith

/-- For a raw sample that is not a multiple of `50000`, truncating the double computed by
`data[i]*0.406615*4.0` gives the same integer as exact arithmetic. -/
theorem rescale_double_floor (r : ℕ) (h1 : 1 ≤ r) (h2 : r < 65536) (h3 : r ≠ 50000) :
    ⌊fl (fl (fl (r : ℚ) * fl (406615 / 1000000)) * fl 4)⌋ = ((r * 81323 / 50000 : ℕ) : ℤ) := by
  have hR1 : (1 : ℚ) ≤ r := by exact_mod_cast h1
  have hR2 : (r : ℚ) ≤ 65535 := by exact_mod_cast (by omega : r ≤ 65535)
  obtain ⟨hY1, hY2⟩ := rescale_double_bounds r h1 h2
  have hdiv := Nat.div_add_mod (r * 81323) 50000
  have hmod : 1 ≤ r * 81323 % 50000 := by
    rw [Nat.one_le_iff_ne_zero]
    intro h0
    have hd : 50000 ∣ r * 81323 := Nat.dvd_of_mod_eq_zero h0
    have hco : Nat.Coprime 50000 81323 := by norm_num
    obtain ⟨k, hk⟩ := hco.dvd_of_dvd_mul_right hd
    omega
  have hmod2 : r * 81323 % 50000 ≤ 49999 := by
    have := Nat.mod_lt (r * 81323) (by norm_num : 0 < 50000)
    omega
  set Q : ℕ := r * 81323 / 50000 with hQ
  set M : ℕ := r * 81323 % 50000 with hM
  have hq : (50000 : ℚ) * Q + M = r * 81323 := by exact_mod_cast hdiv
  have hM1 : (1 : ℚ) ≤ M := by exact_mod_cast hmod
  have hM2 : (M : ℚ) ≤ 49999 := by exact_mod_cast hmod2
  rw [Int.floor_eq_iff]
  constructor
  · push_cast
    refine le_trans ?_ hY1
    norm_num
    linarith
  · push_cast
    refine lt_of_le_of_lt hY2 ?_
    norm_num
    linarith

theorem rescaleSpec_eq (r : ℕ) : rescaleSpec r = ((r * 81323 / 50000 : ℕ) : ℤ) := by
  unfold rescaleSpec
  have h : (r : ℚ) * (406615 / 1000000) * 4 = ((r * 81323 : ℕ) : ℚ) / ((50000 : ℕ) : ℚ) := by
    push_cast
    ring
  rw [h, Rat.floor_natCast_div_natCast]
  norm_cast

theorem rescaleSample_zero : rescaleSample 0 = 0 := by
  simp [rescaleSample, fl, truncToInt, u16]

/-- Within the range that fits 16 bits the program's rescaling is the exact one. -/
theorem rescaleSample_eq (r : ℕ) (h : r ≤ 40293) : rescaleSample r = r * 81323 / 50000 := by
  rcases Nat.eq_zero_or_pos r with h0 | hpos
  · subst h0; rw [rescaleSample_zero]
  have hfloor := rescale_double_floor r hpos (by omega) (by omega)
  have hnn : (0 : ℚ) ≤ fl (fl (fl (r : ℚ) * fl (406615 / 1000000)) * fl 4) := by
    have := (rescale_double_bounds r hpos (by omega)).1
    refine le_trans ?_ this
    have : (0 : ℚ) ≤ r := by positivity
    positivity
  unfold rescaleSample truncToInt
  rw [if_pos hnn, hfloor]
  have hlt : r * 81323 / 50000 < 65536 := by omega
  unfold u16
  have : (((r * 81323 / 50000 : ℕ) : ℤ) % 65536) = ((r * 81323 / 50000 : ℕ) : ℤ) :=
    Int.emod_eq_of_lt (by positivity) (by exact_mod_cast hlt)
  rw [this]
  exact Int.toNat_natCast _

theorem rescaleSample_lt (r : ℕ) : rescaleSample r < 65536 := by
  unfold rescaleSample u16
  have h1 : (0 : ℤ) ≤ truncToInt (fl (fl (fl (r : ℚ) * fl (406615 / 1000000)) * fl 4)) % 65536 :=
    Int.emod_nonneg _ (by norm_num)
  have h2 : truncToInt (fl (fl (fl (r : ℚ) * fl (406615 / 1000000)) * fl 4)) % 65536 < 65536 :=
    Int.emod_lt_of_pos _ (by norm_num)
  omega

/-- The temperature decode of the program, `data[i] / 256.0`, is exact. -/
theorem temperature_exact (w : ℕ) (h : w < 65536) : fl (fl (w : ℚ) / fl 256) = (w : ℚ) / 256 := by
  have h1 : fl (w : ℚ) = w := fl_natCast w (by omega)
  have h2 : fl (256 : ℚ) = 256 := by
    have := fl_natCast 256 (by norm_num)
    simpa using this
  rw [h1, h2]
  have := fl_exact w (-8) (by omega)
  have e : (w : ℚ) * 2 ^ (-8 : ℤ) = (w : ℚ) / 256 := by
    rw [zpow_neg, div_eq_mul_inv]
    norm_num
  rw [e] at this
  exact this

end ArithmeticProofs

/-! ## Theorems : telemetry, session and frame converter -/

section SessionProofs

variable {σ : Type}

@[simp] theorem call_state (U : Uvc σ) (s : CameraDriver σ) (e : Event) :
    (s.call U e).state_ = s.state_ := rfl

@[simp] theorem call_trace (U : Uvc σ) (s : CameraDriver σ) (e : Event) :
    (s.call U e).trace = s.trace ++ [e] := rfl

theorem call_extends (U : Uvc σ) (s : CameraDriver σ) (e : Event) :
    s.trace <+: (s.call U e).trace :=
  List.prefix_append _ _

theorem TOF_GetTemperature_extends (K : Opcodes) (U : Uvc σ) (s : CameraDriver σ) (t1 t2 : ℚ) :
    s.trace <+: (TOF_GetTemperature K U s t1 t2).2.2.2.trace := by
  unfold TOF_GetTemperature
  simp only []
  split_ifs
  · exact TOF_GetCtrl_extends U _ _ _
  · exact (TOF_GetCtrl_extends U _ _ _).trans (emit_extends _ _)

theorem TOF_PublishTemperature_extends (K : Opcodes) (U : Uvc σ) (s : CameraDriver σ)
    (frame_id : String) : s.trace <+: (TOF_PublishTemperature K U s frame_id).trace := by
  unfold TOF_PublishTemperature
  exact (TOF_GetTemperature_extends K U s _ _).trans
    ((call_extends U _ _).trans (call_extends U _ _))

/-- C6. Whenever the temperature read succeeds (`TOF_GetTemperature` returns the full
size `10`), the values it stores in `t1` and `t2` are exactly `word1 / 256` and
`word2 / 256`, where `word1`, `word2` are the unsigned 16-bit words 1 and 2 of the
response; in particular a response word 1 of `0x0140` gives exactly `5/4 = 1.25`. -/
theorem C6_temperature_is_word_over_256 (K : Opcodes) (U : Uvc σ) (s : CameraDriver σ)
    (t1 t2 : ℚ) (hok : (TOF_GetTemperature K U s t1 t2).1 = 10) :
    (TOF_GetCtrl U s ⟨u16 K.TOF_GET_TEMPERATURE, 0, 0, 0, 0⟩ 10).2.1.w1 < 65536
    ∧ (TOF_GetCtrl U s ⟨u16 K.TOF_GET_TEMPERATURE, 0, 0, 0, 0⟩ 10).2.1.w2 < 65536
    ∧ (TOF_GetTemperature K U s t1 t2).2.1
        = temperatureSpec (TOF_GetCtrl U s ⟨u16 K.TOF_GET_TEMPERATURE, 0, 0, 0, 0⟩ 10).2.1.w1
    ∧ (TOF_GetTemperature K U s t1 t2).2.2.1
        = temperatureSpec (TOF_GetCtrl U s ⟨u16 K.TOF_GET_TEMPERATURE, 0, 0, 0, 0⟩ 10).2.1.w2
    ∧ ((TOF_GetCtrl U s ⟨u16 K.TOF_GET_TEMPERATURE, 0, 0, 0, 0⟩ 10).2.1.w1 = 0x0140 →
        (TOF_GetTemperature K U s t1 t2).2.1 = 5 / 4) := by
  have hnorm : ∀ d : Ctrl, (TOF_GetCtrl U s d 10).1 = 10 →
      (TOF_GetCtrl U s d 10).2.1.w1 < 65536 ∧ (TOF_GetCtrl U s d 10).2.1.w2 < 65536 := by
    intro d hd
    unfold TOF_GetCtrl at hd ⊢
    simp only [] at hd ⊢
    split_ifs at hd ⊢ with h1 h2
    · exact absurd hd h1
    · exact absurd hd h2
    · simp only [Ctrl.norm]
      exact ⟨Nat.mod_lt _ (by norm_num), Nat.mod_lt _ (by norm_num)⟩
  have hg : (TOF_GetCtrl U s ⟨u16 K.TOF_GET_TEMPERATURE, 0, 0, 0, 0⟩ 10).1 = 10 := by
    unfold TOF_GetTemperature at hok
    simp only [sizeofCtrl] at hok
    split_ifs at hok with h
    · exact h
    · exact absurd hok h
  obtain ⟨hw1, hw2⟩ := hnorm _ hg
  have e1 : (TOF_GetTemperature K U s t1 t2).2.1
      = temperatureSpec (TOF_GetCtrl U s ⟨u16 K.TOF_GET_TEMPERATURE, 0, 0, 0, 0⟩ 10).2.1.w1 := by
    unfold TOF_GetTemperature temperatureSpec
    simp only [sizeofCtrl, hg, if_true]
    exact temperature_exact _ hw1
  have e2 : (TOF_GetTemperature K U s t1 t2).2.2.1
      = temperatureSpec (TOF_GetCtrl U s ⟨u16 K.TOF_GET_TEMPERATURE, 0, 0, 0, 0⟩ 10).2.1.w2 := by
    unfold TOF_GetTemperature temperatureSpec
    simp only [sizeofCtrl, hg, if_true]
    exact temperature_exact _ hw2
  refine ⟨hw1, hw2, e1, e2, ?_⟩
  intro h320
  rw [e1, h320]
  norm_num [temperatureSpec]

theorem selectDevice_state (U : Uvc σ) (index_id : Int) (devs : List Nat) :
    ∀ (i : Nat) (s : CameraDriver σ), (selectDevice U index_id devs i s).state_ = s.state_ := by
  induction devs with
  | nil => intro i s; rfl
  | cons d rest ih =>
    intro i s
    simp only [selectDevice]
    rw [ih]
    split_ifs <;> rfl

theorem OpenCamera_configure_state (K : Opcodes) (U : Uvc σ) (s : CameraDriver σ)
    (w h : Int) : (OpenCamera_configure K U s w h).state_ = .kRunning := rfl

theorem OpenCamera_stream_state (K : Opcodes) (U : Uvc σ) (s : CameraDriver σ) :
    (OpenCamera_stream K U s).state_ = .kRunning
      ∨ (OpenCamera_stream K U s).state_ = s.state_ := by
  unfold OpenCamera_stream
  simp only []
  split_ifs
  · right; simp
  · right; simp
  · left; exact OpenCamera_configure_state K U _ _ _
  · right; simp
  · right; simp
  · left; exact OpenCamera_configure_state K U _ _ _

theorem OpenCamera_select_state (K : Opcodes) (U : Uvc σ) (s : CameraDriver σ)
    (index_id : Int) (devs : List Nat) :
    (OpenCamera_select K U s index_id devs).state_ = .kRunning
      ∨ (OpenCamera_select K U s index_id devs).state_ = s.state_ := by
  unfold OpenCamera_select
  simp only []
  split_ifs
  · right; simp [selectDevice_state]
  · right; simp [selectDevice_state]
  · right; simp [selectDevice_state]
  · refine (OpenCamera_stream_state K U _).imp id (fun h => h.trans ?_)
    simp [selectDevice_state]

theorem OpenCamera_state (K : Opcodes) (U : Uvc σ) (s : CameraDriver σ) :
    (OpenCamera K U s).state_ = .kRunning ∨ (OpenCamera K U s).state_ = s.state_ := by
  unfold OpenCamera
  simp only []
  split_ifs
  · right; simp
  · refine (OpenCamera_select_state K U _ _ _).imp id (fun h => h.trans ?_)
    simp
  · right; simp
  · refine (OpenCamera_select_state K U _ _ _).imp id (fun h => h.trans ?_)
    simp

theorem CloseCamera_state (U : Uvc σ) (s : CameraDriver σ) :
    (CloseCamera U s).state_ = .kStopped := rfl

/-- C7. From state `kRunning`, for every new configuration and every behaviour of the
outside world, a reconfiguration whose level has all the close-required bits set ends in
`kRunning` or in `kStopped`, never in `kInitial`. -/
theorem C7_close_reconfigure_ends_running_or_stopped (K : Opcodes) (U : Uvc σ)
    (s : CameraDriver σ) (new_config level : Nat) (hrun : s.state_ = .kRunning)
    (hlevel : level &&& K.kReconfigureClose = K.kReconfigureClose) :
    ((ReconfigureCallback K U s new_config level).state_ = .kRunning
      ∨ (ReconfigureCallback K U s new_config level).state_ = .kStopped)
    ∧ (ReconfigureCallback K U s new_config level).state_ ≠ .kInitial := by
  have key : (ReconfigureCallback K U s new_config level).state_ = .kRunning
      ∨ (ReconfigureCallback K U s new_config level).state_ = .kStopped := by
    unfold ReconfigureCallback
    simp only [hlevel, hrun, if_true, CloseCamera_state]
    rcases OpenCamera_state K U (CloseCamera U s) with h | h
    · left; exact h
    · right; rw [CloseCamera_state] at h; exact h
  refine ⟨key, ?_⟩
  rcases key with h | h <;> rw [h] <;> decide

/-- Witness of C7: the running sample driver, reconfigured with level `3`. -/
theorem C7_close_reconfigure_ends_running_or_stopped_witness :
    (sampleDriver .kRunning sampleWorld).state_ = .kRunning
    ∧ 3 &&& sampleOpcodes.kReconfigureClose = sampleOpcodes.kReconfigureClose
    ∧ ((ReconfigureCallback sampleOpcodes sampleUvc (sampleDriver .kRunning sampleWorld) 1
          3).state_ = .kRunning
        ∨ (ReconfigureCallback sampleOpcodes sampleUvc (sampleDriver .kRunning sampleWorld) 1
          3).state_ = .kStopped)
    ∧ (ReconfigureCallback sampleOpcodes sampleUvc (sampleDriver .kRunning sampleWorld) 1
          3).state_ ≠ .kInitial :=
  ⟨rfl, by decide,
    C7_close_reconfigure_ends_running_or_stopped sampleOpcodes sampleUvc
      (sampleDriver .kRunning sampleWorld) 1 3 rfl (by decide)⟩

/-- C8. A frame handed to `ImageCallback` while the state is not `kRunning`, or while the
conversion frame `rgb_frame_` has not been allocated, is dropped: the driver, the outside
world and the record are exactly as before, so nothing is published, no control
transaction is issued and the session state is unchanged. -/
theorem C8_frame_dropped_when_not_running (K : Opcodes) (U : Uvc σ) (s : CameraDriver σ)
    (frame : Frame) (h : s.state_ ≠ .kRunning ∨ s.rgb_frame_ = none) :
    ImageCallback K U s frame = s
    ∧ (ImageCallback K U s frame).trace = s.trace
    ∧ (ImageCallback K U s frame).ext = s.ext
    ∧ (ImageCallback K U s frame).state_ = s.state_
    ∧ ((ImageCallback K U s frame).trace.filter Event.isPublish
        = s.trace.filter Event.isPublish)
    ∧ ctrlOps (ImageCallback K U s frame).trace = ctrlOps s.trace := by
  have e : ImageCallback K U s frame = s := by
    unfold ImageCallback
    simp only [h, if_true]
  rw [e]
  exact ⟨rfl, rfl, rfl, rfl, rfl, rfl⟩

/-- Witness of C8: a frame delivered to the sample driver in state `kStopped`. -/
theorem C8_frame_dropped_when_not_running_witness :
    ((sampleDriver .kStopped sampleWorld).state_ ≠ .kRunning
      ∨ (sampleDriver .kStopped sampleWorld).rgb_frame_ = none)
    ∧ ImageCallback sampleOpcodes sampleUvc (sampleDriver .kStopped sampleWorld)
        sampleFrame
        = sampleDriver .kStopped sampleWorld
    ∧ (ImageCallback sampleOpcodes sampleUvc (sampleDriver .kStopped sampleWorld)
        sampleFrame).trace
        = (sampleDriver .kStopped sampleWorld).trace
    ∧ (ImageCallback sampleOpcodes sampleUvc (sampleDriver .kStopped sampleWorld)
        sampleFrame).ext
        = (sampleDriver .kStopped sampleWorld).ext
    ∧ (ImageCallback sampleOpcodes sampleUvc (sampleDriver .kStopped sampleWorld)
        sampleFrame).state_
        = (sampleDriver .kStopped sampleWorld).state_
    ∧ ((ImageCallback sampleOpcodes sampleUvc (sampleDriver .kStopped sampleWorld)
        sampleFrame).trace.filter Event.isPublish
        = (sampleDriver .kStopped sampleWorld).trace.filter Event.isPublish)
    ∧ ctrlOps (ImageCallback sampleOpcodes sampleUvc (sampleDriver .kStopped sampleWorld)
        sampleFrame).trace
        = ctrlOps (sampleDriver .kStopped sampleWorld).trace :=
  ⟨Or.inl (by decide),
    C8_frame_dropped_when_not_running sampleOpcodes sampleUvc
      (sampleDriver .kStopped sampleWorld) sampleFrame
      (Or.inl (by decide))⟩

/-- Witness of C6: the sample device holds `0x0140` and `0x1900` in words 1 and 2 of its
temperature register. -/
theorem C6_temperature_is_word_over_256_witness :
    (TOF_GetTemperature sampleOpcodes sampleUvc
      (sampleDriver .kRunning { sampleWorld with regs := [(10, ⟨10, 0x0140, 0x1900, 0, 0⟩)] })
      0 0).1 = 10
    ∧ (TOF_GetCtrl sampleUvc
        (sampleDriver .kRunning { sampleWorld with regs := [(10, ⟨10, 0x0140, 0x1900, 0, 0⟩)] })
        ⟨u16 sampleOpcodes.TOF_GET_TEMPERATURE, 0, 0, 0, 0⟩ 10).2.1.w1 < 65536
    ∧ (TOF_GetCtrl sampleUvc
        (sampleDriver .kRunning { sampleWorld with regs := [(10, ⟨10, 0x0140, 0x1900, 0, 0⟩)] })
        ⟨u16 sampleOpcodes.TOF_GET_TEMPERATURE, 0, 0, 0, 0⟩ 10).2.1.w2 < 65536
    ∧ (TOF_GetTemperature sampleOpcodes sampleUvc
        (sampleDriver .kRunning { sampleWorld with regs := [(10, ⟨10, 0x0140, 0x1900, 0, 0⟩)] })
        0 0).2.1
        = temperatureSpec (TOF_GetCtrl sampleUvc
          (sampleDriver .kRunning
            { sampleWorld with regs := [(10, ⟨10, 0x0140, 0x1900, 0, 0⟩)] })
          ⟨u16 sampleOpcodes.TOF_GET_TEMPERATURE, 0, 0, 0, 0⟩ 10).2.1.w1
    ∧ (TOF_GetTemperature sampleOpcodes sampleUvc
        (sampleDriver .kRunning { sampleWorld with regs := [(10, ⟨10, 0x0140, 0x1900, 0, 0⟩)] })
        0 0).2.2.1
        = temperatureSpec (TOF_GetCtrl sampleUvc
          (sampleDriver .kRunning
            { sampleWorld with regs := [(10, ⟨10, 0x0140, 0x1900, 0, 0⟩)] })
          ⟨u16 sampleOpcodes.TOF_GET_TEMPERATURE, 0, 0, 0, 0⟩ 10).2.1.w2
    ∧ ((TOF_GetCtrl sampleUvc
        (sampleDriver .kRunning { sampleWorld with regs := [(10, ⟨10, 0x0140, 0x1900, 0, 0⟩)] })
        ⟨u16 sampleOpcodes.TOF_GET_TEMPERATURE, 0, 0, 0, 0⟩ 10).2.1.w1 = 0x0140 →
        (TOF_GetTemperature sampleOpcodes sampleUvc
          (sampleDriver .kRunning
            { sampleWorld with regs := [(10, ⟨10, 0x0140, 0x1900, 0, 0⟩)] })
          0 0).2.1 = 5 / 4) :=
  ⟨by decide,
    C6_temperature_is_word_over_256 sampleOpcodes sampleUvc
      (sampleDriver .kRunning { sampleWorld with regs := [(10, ⟨10, 0x0140, 0x1900, 0, 0⟩)] })
      0 0 (by decide)⟩

theorem copyFrame_getElem? (n : Nat) (data : List Nat) (i : Nat) (raw : Nat) (hi : i < n)
    (h : data[i]? = some raw) : (copyFrame n data)[i]? = some raw := by
  unfold copyFrame
  have hlen : i < data.length := by
    rcases Nat.lt_or_ge i data.length with h1 | h1
    · exact h1
    · rw [List.getElem?_eq_none h1] at h; cases h
  rw [List.getElem?_append_left (by simp [List.length_take]; omega)]
  rw [List.getElem?_take_of_lt hi]
  exact h

theorem rescaleLoop_getElem? (count : Nat) (data : List Nat) (i : Nat) (raw : Nat)
    (hi : i < count) (h : data[i]? = some raw) :
    (rescaleLoop count data)[i]? = some (rescaleSample raw) := by
  unfold rescaleLoop
  have hlen : i < data.length := by
    rcases Nat.lt_or_ge i data.length with h1 | h1
    · exact h1
    · rw [List.getElem?_eq_none h1] at h; cases h
  rw [List.getElem?_append_left (by simp [List.length_take]; omega)]
  rw [List.getElem?_map, List.getElem?_take_of_lt hi, h]
  rfl

theorem ImageCallback_publish_extends (K : Opcodes) (U : Uvc σ) (s : CameraDriver σ)
    (encoding : String) (width height step : Nat) (data : List Nat) (timestamp : Int × Int) :
    s.trace ++ [Event.getParam "frame_id",
        Event.publish_image encoding width height step data
          ((U.getParam_str s.ext "frame_id").getD "") timestamp]
      <+: (ImageCallback_publish K U s encoding width height step data timestamp).trace := by
  have h0 : s.trace ++ [Event.getParam "frame_id",
        Event.publish_image encoding width height step data
          ((U.getParam_str s.ext "frame_id").getD "") timestamp]
      = ((s.emit (.getParam "frame_id")).call U
          (.publish_image encoding width height step data
            ((U.getParam_str (s.emit (.getParam "frame_id")).ext "frame_id").getD "")
            timestamp)).trace := by
    simp
  rw [h0]
  unfold ImageCallback_publish
  simp only []
  split_ifs
  · exact (TOF_PublishTemperature_extends K U _ _).trans (call_extends U _ _)
  · exact TOF_PublishTemperature_extends K U _ _

/-- The record of `ImageCallback` for a 16-bit grayscale frame in state `kRunning`: after
the reads of `width`, `height` and `frame_id` the rescaled image is published. -/
theorem ImageCallback_gray16_trace (K : Opcodes) (U : Uvc σ) (s : CameraDriver σ)
    (frame : Frame) (hrun : s.state_ = .kRunning) (hbuf : s.rgb_frame_ ≠ none)
    (hfmt : frame.frame_format = .GRAY16) :
    ∃ rest,
      (ImageCallback K U s frame).trace
        = s.trace ++ [Event.getParam "width", Event.getParam "height",
            Event.getParam "frame_id",
            Event.publish_image "16UC1"
              (((U.getParam_int s.ext "width").getD U.uninit_int) % 2 ^ 32).toNat
              (((U.getParam_int s.ext "height").getD U.uninit_int) % 2 ^ 32).toNat
              ((((U.getParam_int s.ext "width").getD U.uninit_int) % 2 ^ 32).toNat * 2 % 2 ^ 32)
              (rescaleLoop
                ((((U.getParam_int s.ext "height").getD U.uninit_int) % 2 ^ 32).toNat
                  * (((U.getParam_int s.ext "width").getD U.uninit_int) % 2 ^ 32).toNat
                  % 2 ^ 32)
                (copyFrame
                  ((((U.getParam_int s.ext "width").getD U.uninit_int) % 2 ^ 32).toNat * 2
                    % 2 ^ 32
                    * (((U.getParam_int s.ext "height").getD U.uninit_int) % 2 ^ 32).toNat
                    % 2 ^ 32 / 2)
                  frame.data))
              ((U.getParam_str s.ext "frame_id").getD "")
              (if frame.capture_time = (0, 0) then U.now s.ext else frame.capture_time)]
          ++ rest := by
  have hg : ¬ (s.state_ ≠ .kRunning ∨ s.rgb_frame_ = none) := by
    rw [hrun]; simp [hbuf]
  unfold ImageCallback
  simp only [hg, if_false, hfmt, if_true]
  obtain ⟨rest, hrest⟩ := ImageCallback_publish_extends K U
    ((s.emit (.getParam "width")).emit (.getParam "height")) "16UC1"
    (((U.getParam_int s.ext "width").getD U.uninit_int) % 2 ^ 32).toNat
    (((U.getParam_int s.ext "height").getD U.uninit_int) % 2 ^ 32).toNat
    ((((U.getParam_int s.ext "width").getD U.uninit_int) % 2 ^ 32).toNat * 2 % 2 ^ 32)
    (rescaleLoop
      ((((U.getParam_int s.ext "height").getD U.uninit_int) % 2 ^ 32).toNat
        * (((U.getParam_int s.ext "width").getD U.uninit_int) % 2 ^ 32).toNat
        % 2 ^ 32)
      (copyFrame
        ((((U.getParam_int s.ext "width").getD U.uninit_int) % 2 ^ 32).toNat * 2
          % 2 ^ 32
          * (((U.getParam_int s.ext "height").getD U.uninit_int) % 2 ^ 32).toNat
          % 2 ^ 32 / 2)
        frame.data))
    (if frame.capture_time = (0, 0) then U.now s.ext else frame.capture_time)
  refine ⟨rest, ?_⟩
  simp only [emit_ext, emit_trace] at hrest ⊢
  rw [← hrest]
  simp

/-- Counterexample to C5 as stated: the sample frame carries the raw value `40294` at
index 2 of a 2 by 2 image; exact arithmetic gives `65536` for it, while the published
sample, a 16-bit value, is different. -/
theorem C5_counterexample :
    ∃ data rest,
      (ImageCallback sampleOpcodes sampleUvc (sampleDriver .kRunning sampleWorld)
          sampleFrame).trace
        = [Event.getParam "width", Event.getParam "height", Event.getParam "frame_id",
            Event.publish_image "16UC1" 2 2 4 data "camera" (1, 0)] ++ rest
      ∧ sampleFrame.frame_format = .GRAY16
      ∧ sampleFrame.data[2]? = some 40294
      ∧ rescaleSpec 40294 = 65536
      ∧ ∃ out : Nat, data[2]? = some out ∧ (out : Int) ≠ rescaleSpec 40294 := by
  obtain ⟨rest, hrest⟩ := ImageCallback_gray16_trace sampleOpcodes sampleUvc
    (sampleDriver .kRunning sampleWorld) sampleFrame rfl (by decide) rfl
  have hspec : rescaleSpec 40294 = 65536 := by
    rw [rescaleSpec_eq]; norm_num
  refine ⟨_, rest, hrest, rfl, rfl, hspec, rescaleSample 40294, ?_, ?_⟩
  · apply rescaleLoop_getElem? _ _ _ _ (by decide)
    exact copyFrame_getElem? _ _ _ _ (by decide) rfl
  · rw [hspec]
    have := rescaleSample_lt 40294
    omega

/-- C5 (amended). For every frame in the 16-bit grayscale depth format handled in state
`kRunning`, the image published has the configured width and height, and (when
`width * height` samples fit the 32-bit size fields) every sample index
`i < width * height` whose raw sample is at most `40293` carries the raw sample
multiplied by `0.406615` and by `4.0` and truncated to an integer, in exact arithmetic;
in particular a raw sample of `1000` becomes `1626`. -/
theorem C5_depth_rescale_within_16_bits (K : Opcodes) (U : Uvc σ) (s : CameraDriver σ)
    (frame : Frame) (hrun : s.state_ = .kRunning) (hbuf : s.rgb_frame_ ≠ none)
    (hfmt : frame.frame_format = .GRAY16) :
    ∃ width height step data frame_id stamp rest,
      (ImageCallback K U s frame).trace
        = s.trace ++ [Event.getParam "width", Event.getParam "height",
            Event.getParam "frame_id",
            Event.publish_image "16UC1" width height step data frame_id stamp] ++ rest
      ∧ (width * height * 2 < 2 ^ 32 → ∀ i raw, i < width * height →
          frame.data[i]? = some raw → raw ≤ 40293 →
          ∃ out : Nat, data[i]? = some out ∧ (out : Int) = rescaleSpec raw)
      ∧ rescaleSample 1000 = 1626
      ∧ rescaleSpec 1000 = 1626 := by
  obtain ⟨rest, hrest⟩ := ImageCallback_gray16_trace K U s frame hrun hbuf hfmt
  refine ⟨_, _, _, _, _, _, rest, hrest, ?_, ?_, ?_⟩
  · generalize (((U.getParam_int s.ext "width").getD U.uninit_int) % 2 ^ 32).toNat = W
    generalize (((U.getParam_int s.ext "height").getD U.uninit_int) % 2 ^ 32).toNat = H
    intro hfit i raw hi hraw hle
    have hH : 1 ≤ H := by
      rcases Nat.eq_zero_or_pos H with h0 | h0
      · subst h0; simp at hi
      · exact h0
    have hW : 1 ≤ W := by
      rcases Nat.eq_zero_or_pos W with h0 | h0
      · subst h0; simp at hi
      · exact h0
    have h1 : W * 2 ≤ W * H * 2 := by nlinarith
    have e1 : W * 2 % 2 ^ 32 = W * 2 := Nat.mod_eq_of_lt (by omega)
    have e2 : W * 2 * H % 2 ^ 32 = W * 2 * H := Nat.mod_eq_of_lt (by nlinarith)
    have e3 : W * 2 * H / 2 = W * H := by
      have : W * 2 * H = W * H * 2 := by ring
      rw [this]; exact Nat.mul_div_cancel _ (by norm_num)
    have e4 : H * W % 2 ^ 32 = W * H := by
      rw [Nat.mul_comm H W]; exact Nat.mod_eq_of_lt (by omega)
    rw [e1, e2, e3, e4]
    refine ⟨rescaleSample raw, ?_, ?_⟩
    · exact rescaleLoop_getElem? _ _ _ _ hi (copyFrame_getElem? _ _ _ _ hi hraw)
    · rw [rescaleSample_eq raw hle, rescaleSpec_eq]
  · rw [rescaleSample_eq 1000 (by norm_num)]
  · rw [rescaleSpec_eq]; norm_num

/-- Witness of C5 (amended): the sample frame delivered to the running sample driver. -/
theorem C5_depth_rescale_within_16_bits_witness :
    (sampleDriver .kRunning sampleWorld).state_ = .kRunning
    ∧ (sampleDriver .kRunning sampleWorld).rgb_frame_ ≠ none
    ∧ sampleFrame.frame_format = .GRAY16
    ∧ ∃ width height step data frame_id stamp rest,
      (ImageCallback sampleOpcodes sampleUvc (sampleDriver .kRunning sampleWorld)
          sampleFrame).trace
        = (sampleDriver .kRunning sampleWorld).trace ++ [Event.getParam "width",
            Event.getParam "height", Event.getParam "frame_id",
            Event.publish_image "16UC1" width height step data frame_id stamp] ++ rest
      ∧ (width * height * 2 < 2 ^ 32 → ∀ i raw, i < width * height →
          sampleFrame.data[i]? = some raw → raw ≤ 40293 →
          ∃ out : Nat, data[i]? = some out ∧ (out : Int) = rescaleSpec raw)
      ∧ rescaleSample 1000 = 1626
      ∧ rescaleSpec 1000 = 1626 :=
  ⟨rfl, by decide, rfl,
    C5_depth_rescale_within_16_bits sampleOpcodes sampleUvc
      (sampleDriver .kRunning sampleWorld) sampleFrame rfl (by decide) rfl⟩

end SessionProofs

/-! ## Theorems : range of the depth rescale -/

section RescaleRangeProofs

theorem rescaleSample_eq_u16 (r : ℕ) : rescaleSample r = u16 (rescaleValue r) := rfl

theorem rescaleValue_eq_floor (r : ℕ) (h1 : 1 ≤ r) (h2 : r < 65536) :
    rescaleValue r = ⌊fl (fl (fl (r : ℚ) * fl (406615 / 1000000)) * fl 4)⌋ := by
  have hnn : (0 : ℚ) ≤ fl (fl (fl (r : ℚ) * fl (406615 / 1000000)) * fl 4) := by
    have := (rescale_double_bounds r h1 h2).1
    refine le_trans ?_ this
    have : (0 : ℚ) ≤ r := by positivity
    positivity
  unfold rescaleValue truncToInt
  rw [if_pos hnn]

theorem rescaleValue_zero : rescaleValue 0 = 0 := by
  simp [rescaleValue, fl, truncToInt]

theorem rescaleValue_small (r : ℕ) (h : r ≤ 40293) :
    rescaleValue r = ((r * 81323 / 50000 : ℕ) : ℤ) := by
  rcases Nat.eq_zero_or_pos r with h0 | hpos
  · subst h0; rw [rescaleValue_zero]; rfl
  · rw [rescaleValue_eq_floor r hpos (by omega)]
    exact rescale_double_floor r hpos (by omega) (by omega)

theorem rescaleValue_large (r : ℕ) (h1 : 40294 ≤ r) (h2 : r < 65536) :
    65536 ≤ rescaleValue r := by
  rw [rescaleValue_eq_floor r (by omega) h2]
  rw [Int.le_floor]
  have hR : (40294 : ℚ) ≤ r := by exact_mod_cast h1
  have hb := (rescale_double_bounds r (by omega) h2).1
  refine le_trans ?_ hb
  push_cast
  norm_num
  linarith

/-- C15. For every unsigned 16-bit raw depth sample `r`, the value
`trunc(r * 0.406615 * 4.0)` computed in `ImageCallback` is at most `65535` exactly when
`r <= 40293`; `40293` rescales to `65534` and `40294` to `65536`, and every raw sample from
`40294` to `65535` has a rescaled value above `65535`, which the 16-bit output sample (a
value below `65536`) cannot hold. -/
theorem C15_rescale_fits_16_bits_iff (r : ℕ) (hr : r < 65536) :
    (rescaleValue r ≤ 65535 ↔ r ≤ 40293)
    ∧ rescaleValue 40293 = 65534
    ∧ rescaleValue 40294 = 65536
    ∧ (40294 ≤ r → 65535 < rescaleValue r ∧ (rescaleSample r : ℤ) ≠ rescaleValue r) := by
  refine ⟨⟨?_, ?_⟩, ?_, ?_, ?_⟩
  · intro hle
    by_contra hgt
    have := rescaleValue_large r (by omega) hr
    omega
  · intro hle
    rw [rescaleValue_small r hle]
    have : r * 81323 / 50000 ≤ 65535 := by omega
    exact_mod_cast this
  · rw [rescaleValue_small 40293 (by norm_num)]
    norm_num
  · rw [rescaleValue_eq_floor 40294 (by norm_num) (by norm_num)]
    have := rescale_double_floor 40294 (by norm_num) (by norm_num) (by norm_num)
    rw [this]
    norm_num
  · intro hge
    have hl := rescaleValue_large r hge hr
    have hs := rescaleSample_lt r
    constructor
    · omega
    · omega

/-- Witness of C15: the largest 16-bit raw sample, `65535`. -/
theorem C15_rescale_fits_16_bits_iff_witness :
    65535 < 65536
    ∧ (rescaleValue 65535 ≤ 65535 ↔ 65535 ≤ 40293)
    ∧ rescaleValue 40293 = 65534
    ∧ rescaleValue 40294 = 65536
    ∧ (40294 ≤ 65535 →
        65535 < rescaleValue 65535 ∧ (rescaleSample 65535 : ℤ) ≠ rescaleValue 65535) :=
  ⟨by decide, C15_rescale_fits_16_bits_iff 65535 (by decide)⟩

end RescaleRangeProofs

/-! ## Theorems : depth-conversion gain -/

section GainProofs

variable {σ : Type}

theorem TOF_GetCtrl_words_lt (U : Uvc σ) (s : CameraDriver σ) (d : Ctrl) (size : Int)
    (h : (TOF_GetCtrl U s d size).1 = size) :
    (TOF_GetCtrl U s d size).2.1.w1 < 65536 ∧ (TOF_GetCtrl U s d size).2.1.w2 < 65536
    ∧ (TOF_GetCtrl U s d size).2.1.w3 < 65536 ∧ (TOF_GetCtrl U s d size).2.1.w4 < 65536 := by
  unfold TOF_GetCtrl at h ⊢
  simp only [] at h ⊢
  split_ifs at h ⊢ with h1 h2
  · exact absurd h h1
  · exact absurd h h2
  · simp only [Ctrl.norm]
    exact ⟨Nat.mod_lt _ (by norm_num), Nat.mod_lt _ (by norm_num),
      Nat.mod_lt _ (by norm_num), Nat.mod_lt _ (by norm_num)⟩

theorem readRegister_ok (U : Uvc σ) (s : CameraDriver σ) (op : Int) (okText : String)
    (args : Ctrl → List Int) (errText : String)
    (h : (readRegister U s op okText args errText).1 = 10) :
    (TOF_GetCtrl U s ⟨u16 op, 0, 0, 0, 0⟩ 10).1 = 10
    ∧ (readRegister U s op okText args errText).2.1
        = (TOF_GetCtrl U s ⟨u16 op, 0, 0, 0, 0⟩ 10).2.1
    ∧ (readRegister U s op okText args errText).2.2.trace.getLast?
        = some (Event.ros .info okText [] (args (readRegister U s op okText args errText).2.1)) := by
  unfold readRegister at h ⊢
  simp only [sizeofCtrl] at h ⊢
  split_ifs at h ⊢ with h1
  · refine ⟨h1, rfl, ?_⟩
    simp
  · exact absurd h h1

theorem doubleBits_inj (a b : Ctrl) (ha1 : a.w1 < 65536) (ha2 : a.w2 < 65536)
    (ha3 : a.w3 < 65536) (hb1 : b.w1 < 65536) (hb2 : b.w2 < 65536)
    (hb3 : b.w3 < 65536) :
    doubleBits a = doubleBits b ↔ a.w1 = b.w1 ∧ a.w2 = b.w2 ∧ a.w3 = b.w3 ∧ a.w4 = b.w4 := by
  unfold doubleBits
  constructor
  · intro h
    norm_num at h
    omega
  · rintro ⟨h1, h2, h3, h4⟩
    rw [h1, h2, h3, h4]

/-- Counterexample to C12 as stated: two successful responses agree on words 1 and 2
(both zero) and differ in word 4 (`0x3FF0` against `0x4000`); the 64-bit patterns the
gain is taken from differ, and they denote the gains `1` and `2`. -/
theorem C12_counterexample :
    (TOF_GetDepthCnvGain sampleOpcodes sampleUvc
        (sampleDriver .kRunning (gainWorld 0x3FF0))).1 = 10
    ∧ (TOF_GetDepthCnvGain sampleOpcodes sampleUvc
        (sampleDriver .kRunning (gainWorld 0x4000))).1 = 10
    ∧ (TOF_GetDepthCnvGain sampleOpcodes sampleUvc
        (sampleDriver .kRunning (gainWorld 0x3FF0))).2.1 = ⟨0x8007, 0, 0, 0, 0x3FF0⟩
    ∧ (TOF_GetDepthCnvGain sampleOpcodes sampleUvc
        (sampleDriver .kRunning (gainWorld 0x4000))).2.1 = ⟨0x8007, 0, 0, 0, 0x4000⟩
    ∧ (TOF_GetDepthCnvGain sampleOpcodes sampleUvc
        (sampleDriver .kRunning (gainWorld 0x3FF0))).2.2.trace.getLast?
        = some (Event.ros .info "Get Depth Cnv Gain : %f" [] [0x3FF0000000000000])
    ∧ (TOF_GetDepthCnvGain sampleOpcodes sampleUvc
        (sampleDriver .kRunning (gainWorld 0x4000))).2.2.trace.getLast?
        = some (Event.ros .info "Get Depth Cnv Gain : %f" [] [0x4000000000000000])
    ∧ binary64Value 0x3FF0000000000000 = 1
    ∧ binary64Value 0x4000000000000000 = 2 := by
  refine ⟨by decide, by decide, by decide, by decide, by decide, by decide, ?_, ?_⟩
  · norm_num [binary64Value]
  · norm_num [binary64Value]

/-- C12 (amended). For every successful depth-conversion-gain read, the 64-bit pattern
from which `TOF_GetDepthCnvGain` takes the gain is formed by the response words 1, 2, 3
and 4 together (word 1 the lowest 16 bits, word 4 the highest): two successful responses
yield the same pattern, hence the same gain, exactly when they agree on words 1 to 4,
whatever their word 0 is. -/
theorem C12_gain_pattern_is_words_1_to_4 (K : Opcodes) (U U' : Uvc σ) (s s' : CameraDriver σ)
    (h : (TOF_GetDepthCnvGain K U s).1 = 10) (h' : (TOF_GetDepthCnvGain K U' s').1 = 10) :
    (TOF_GetDepthCnvGain K U s).2.2.trace.getLast?
      = some (Event.ros .info "Get Depth Cnv Gain : %f" []
          [((TOF_GetDepthCnvGain K U s).2.1.w1 + (TOF_GetDepthCnvGain K U s).2.1.w2 * 2 ^ 16
            + (TOF_GetDepthCnvGain K U s).2.1.w3 * 2 ^ 32
            + (TOF_GetDepthCnvGain K U s).2.1.w4 * 2 ^ 48 : ℕ)])
    ∧ (doubleBits (TOF_GetDepthCnvGain K U s).2.1 = doubleBits (TOF_GetDepthCnvGain K U' s').2.1
        ↔ (TOF_GetDepthCnvGain K U s).2.1.w1 = (TOF_GetDepthCnvGain K U' s').2.1.w1
          ∧ (TOF_GetDepthCnvGain K U s).2.1.w2 = (TOF_GetDepthCnvGain K U' s').2.1.w2
          ∧ (TOF_GetDepthCnvGain K U s).2.1.w3 = (TOF_GetDepthCnvGain K U' s').2.1.w3
          ∧ (TOF_GetDepthCnvGain K U s).2.1.w4 = (TOF_GetDepthCnvGain K U' s').2.1.w4) := by
  unfold TOF_GetDepthCnvGain at h h' ⊢
  obtain ⟨g1, e1, t1⟩ := readRegister_ok U s _ _ _ _ h
  obtain ⟨g2, e2, _⟩ := readRegister_ok U' s' _ _ _ _ h'
  obtain ⟨a1, a2, a3, _⟩ := TOF_GetCtrl_words_lt U s _ _ g1
  obtain ⟨b1, b2, b3, _⟩ := TOF_GetCtrl_words_lt U' s' _ _ g2
  refine ⟨?_, ?_⟩
  · rw [t1]; rfl
  · rw [e1, e2]
    exact doubleBits_inj _ _ a1 a2 a3 b1 b2 b3

/-- Witness of C12 (amended): the two sample responses with word 4 `0x3FF0` and `0x4000`. -/
theorem C12_gain_pattern_is_words_1_to_4_witness :
    (TOF_GetDepthCnvGain sampleOpcodes sampleUvc
        (sampleDriver .kRunning (gainWorld 0x3FF0))).1 = 10
    ∧ (TOF_GetDepthCnvGain sampleOpcodes sampleUvc
        (sampleDriver .kRunning (gainWorld 0x4000))).1 = 10
    ∧ (TOF_GetDepthCnvGain sampleOpcodes sampleUvc
        (sampleDriver .kRunning (gainWorld 0x3FF0))).2.2.trace.getLast?
      = some (Event.ros .info "Get Depth Cnv Gain : %f" []
          [((TOF_GetDepthCnvGain sampleOpcodes sampleUvc
              (sampleDriver .kRunning (gainWorld 0x3FF0))).2.1.w1
            + (TOF_GetDepthCnvGain sampleOpcodes sampleUvc
              (sampleDriver .kRunning (gainWorld 0x3FF0))).2.1.w2 * 2 ^ 16
            + (TOF_GetDepthCnvGain sampleOpcodes sampleUvc
              (sampleDriver .kRunning (gainWorld 0x3FF0))).2.1.w3 * 2 ^ 32
            + (TOF_GetDepthCnvGain sampleOpcodes sampleUvc
              (sampleDriver .kRunning (gainWorld 0x3FF0))).2.1.w4 * 2 ^ 48 : ℕ)])
    ∧ (doubleBits (TOF_GetDepthCnvGain sampleOpcodes sampleUvc
          (sampleDriver .kRunning (gainWorld 0x3FF0))).2.1
        = doubleBits (TOF_GetDepthCnvGain sampleOpcodes sampleUvc
          (sampleDriver .kRunning (gainWorld 0x4000))).2.1
        ↔ (TOF_GetDepthCnvGain sampleOpcodes sampleUvc
            (sampleDriver .kRunning (gainWorld 0x3FF0))).2.1.w1
            = (TOF_GetDepthCnvGain sampleOpcodes sampleUvc
              (sampleDriver .kRunning (gainWorld 0x4000))).2.1.w1
          ∧ (TOF_GetDepthCnvGain sampleOpcodes sampleUvc
            (sampleDriver .kRunning (gainWorld 0x3FF0))).2.1.w2
            = (TOF_GetDepthCnvGain sampleOpcodes sampleUvc
              (sampleDriver .kRunning (gainWorld 0x4000))).2.1.w2
          ∧ (TOF_GetDepthCnvGain sampleOpcodes sampleUvc
            (sampleDriver .kRunning (gainWorld 0x3FF0))).2.1.w3
            = (TOF_GetDepthCnvGain sampleOpcodes sampleUvc
              (sampleDriver .kRunning (gainWorld 0x4000))).2.1.w3
          ∧ (TOF_GetDepthCnvGain sampleOpcodes sampleUvc
            (sampleDriver .kRunning (gainWorld 0x3FF0))).2.1.w4
            = (TOF_GetDepthCnvGain sampleOpcodes sampleUvc
              (sampleDriver .kRunning (gainWorld 0x4000))).2.1.w4) :=
  ⟨by decide, by decide,
    C12_gain_pattern_is_words_1_to_4 sampleOpcodes sampleUvc sampleUvc
      (sampleDriver .kRunning (gainWorld 0x3FF0)) (sampleDriver .kRunning (gainWorld 0x4000))
      (by decide) (by decide)⟩

end GainProofs

/-! ## Theorems : reconfiguration -/

section ReconfigureProofs

variable {σ : Type}

theorem ReconfigureCallback_idle (K : Opcodes) (U : Uvc σ) (s : CameraDriver σ)
    (new_config level : Nat) (hst : s.state_ ≠ .kStopped)
    (hlevel : level &&& K.kReconfigureClose ≠ K.kReconfigureClose) :
    ReconfigureCallback K U s new_config level = { s with config_ := new_config } := by
  unfold ReconfigureCallback
  simp only [hlevel, if_false, hst]

/-- Counterexample to C13 as stated: the sample driver in state `kStopped` receives a
reconfiguration of level `0` (no close-required bit); the callback opens the device and
starts the stream, the state becomes `kRunning` and the device handle changes. -/
theorem C13_counterexample :
    (sampleDriver .kStopped sampleWorld).state_ = .kStopped
    ∧ (sampleDriver .kStopped sampleWorld).devh_ = some 1
    ∧ 0 &&& sampleOpcodes.kReconfigureClose ≠ sampleOpcodes.kReconfigureClose
    ∧ (ReconfigureCallback sampleOpcodes sampleUvc (sampleDriver .kStopped sampleWorld) 1
        0).state_ = .kRunning
    ∧ (ReconfigureCallback sampleOpcodes sampleUvc (sampleDriver .kStopped sampleWorld) 1
        0).devh_ = some 42
    ∧ Event.uvc_open (some 42)
        ∈ (ReconfigureCallback sampleOpcodes sampleUvc (sampleDriver .kStopped sampleWorld) 1
            0).trace
    ∧ Event.uvc_start_streaming (some 42)
        ∈ (ReconfigureCallback sampleOpcodes sampleUvc (sampleDriver .kStopped sampleWorld) 1
            0).trace := by
  set_option maxRecDepth 20000 in
  exact ⟨rfl, rfl, by decide, by decide, by decide, by decide, by decide⟩

/-- C13 (amended). For every starting session state other than `kStopped` and every new
configuration, a reconfiguration whose level does not have the close-required bits set
only stores the new configuration: the session state, the device and its handle, the
outside world and the record after the call equal those before the call, so no device
open, close or stream start is performed. -/
theorem C13_reconfigure_without_close_keeps_acquisition (K : Opcodes) (U : Uvc σ)
    (s : CameraDriver σ) (new_config level : Nat) (hst : s.state_ ≠ .kStopped)
    (hlevel : level &&& K.kReconfigureClose ≠ K.kReconfigureClose) :
    (ReconfigureCallback K U s new_config level).state_ = s.state_
    ∧ (ReconfigureCallback K U s new_config level).devh_ = s.devh_
    ∧ (ReconfigureCallback K U s new_config level).dev_ = s.dev_
    ∧ (ReconfigureCallback K U s new_config level).ext = s.ext
    ∧ (ReconfigureCallback K U s new_config level).trace = s.trace
    ∧ (ReconfigureCallback K U s new_config level).config_ = new_config := by
  rw [ReconfigureCallback_idle K U s new_config level hst hlevel]
  exact ⟨rfl, rfl, rfl, rfl, rfl, rfl⟩

/-- Witness of C13 (amended): the running sample driver, reconfigured with level `0`. -/
theorem C13_reconfigure_without_close_keeps_acquisition_witness :
    (sampleDriver .kRunning sampleWorld).state_ ≠ .kStopped
    ∧ 0 &&& sampleOpcodes.kReconfigureClose ≠ sampleOpcodes.kReconfigureClose
    ∧ (ReconfigureCallback sampleOpcodes sampleUvc (sampleDriver .kRunning sampleWorld) 1
        0).state_ = (sampleDriver .kRunning sampleWorld).state_
    ∧ (ReconfigureCallback sampleOpcodes sampleUvc (sampleDriver .kRunning sampleWorld) 1
        0).devh_ = (sampleDriver .kRunning sampleWorld).devh_
    ∧ (ReconfigureCallback sampleOpcodes sampleUvc (sampleDriver .kRunning sampleWorld) 1
        0).dev_ = (sampleDriver .kRunning sampleWorld).dev_
    ∧ (ReconfigureCallback sampleOpcodes sampleUvc (sampleDriver .kRunning sampleWorld) 1
        0).ext = (sampleDriver .kRunning sampleWorld).ext
    ∧ (ReconfigureCallback sampleOpcodes sampleUvc (sampleDriver .kRunning sampleWorld) 1
        0).trace = (sampleDriver .kRunning sampleWorld).trace
    ∧ (ReconfigureCallback sampleOpcodes sampleUvc (sampleDriver .kRunning sampleWorld) 1
        0).config_ = 1 :=
  ⟨by decide, by decide,
    C13_reconfigure_without_close_keeps_acquisition sampleOpcodes sampleUvc
      (sampleDriver .kRunning sampleWorld) 1 0 (by decide) (by decide)⟩

/-- Counterexample to C14 as stated: the running sample driver holds configuration `0`
and receives the different configuration `1` with level `0`; the callback records no
action at all, so no control write reaches the device. -/
theorem C14_counterexample :
    (sampleDriver .kRunning sampleWorld).state_ = .kRunning
    ∧ 0 &&& sampleOpcodes.kReconfigureClose ≠ sampleOpcodes.kReconfigureClose
    ∧ (sampleDriver .kRunning sampleWorld).config_ ≠ 1
    ∧ (ReconfigureCallback sampleOpcodes sampleUvc (sampleDriver .kRunning sampleWorld) 1
        0).trace = []
    ∧ ctrlOps (ReconfigureCallback sampleOpcodes sampleUvc
        (sampleDriver .kRunning sampleWorld) 1 0).trace = [] := by
  exact ⟨rfl, by decide, by decide, by decide, by decide⟩

/-- C14 (amended). For every session in state `kRunning` and every reconfiguration whose
level does not have the close-required bits set, whatever the new configuration changes,
`ReconfigureCallback` issues no control transaction: it stores the new configuration in
`config_` and leaves the device untouched. -/
theorem C14_running_reconfigure_writes_nothing (K : Opcodes) (U : Uvc σ)
    (s : CameraDriver σ) (new_config level : Nat) (hrun : s.state_ = .kRunning)
    (hlevel : level &&& K.kReconfigureClose ≠ K.kReconfigureClose) :
    ctrlOps (ReconfigureCallback K U s new_config level).trace = ctrlOps s.trace
    ∧ (ReconfigureCallback K U s new_config level).trace = s.trace
    ∧ (ReconfigureCallback K U s new_config level).ext = s.ext
    ∧ (ReconfigureCallback K U s new_config level).config_ = new_config := by
  have hst : s.state_ ≠ .kStopped := by rw [hrun]; decide
  rw [ReconfigureCallback_idle K U s new_config level hst hlevel]
  exact ⟨rfl, rfl, rfl, rfl⟩

/-- Witness of C14 (amended): the running sample driver, reconfigured with level `0`. -/
theorem C14_running_reconfigure_writes_nothing_witness :
    (sampleDriver .kRunning sampleWorld).state_ = .kRunning
    ∧ 0 &&& sampleOpcodes.kReconfigureClose ≠ sampleOpcodes.kReconfigureClose
    ∧ ctrlOps (ReconfigureCallback sampleOpcodes sampleUvc
        (sampleDriver .kRunning sampleWorld) 1 0).trace
        = ctrlOps (sampleDriver .kRunning sampleWorld).trace
    ∧ (ReconfigureCallback sampleOpcodes sampleUvc (sampleDriver .kRunning sampleWorld) 1
        0).trace = (sampleDriver .kRunning sampleWorld).trace
    ∧ (ReconfigureCallback sampleOpcodes sampleUvc (sampleDriver .kRunning sampleWorld) 1
        0).ext = (sampleDriver .kRunning sampleWorld).ext
    ∧ (ReconfigureCallback sampleOpcodes sampleUvc (sampleDriver .kRunning sampleWorld) 1
        0).config_ = 1 :=
  ⟨rfl, by decide,
    C14_running_reconfigure_writes_nothing sampleOpcodes sampleUvc
      (sampleDriver .kRunning sampleWorld) 1 0 rfl (by decide)⟩

end ReconfigureProofs

/-! ## Theorems : outcome of OpenCamera -/

section OpenProofs

variable {σ : Type}

theorem OpenCamera_eq (K : Opcodes) (U : Uvc σ) (s : CameraDriver σ) :
    OpenCamera K U s
      = if (OpenCamera_lookup U s).1 ≠ 0 then
          (OpenCamera_lookup U s).2.2.2.emit (.ros .error "uvc_find_device" [] [])
        else
          OpenCamera_select K U (OpenCamera_lookup U s).2.2.2 (OpenCamera_lookup U s).2.2.1
            (OpenCamera_lookup U s).2.1 := rfl

theorem OpenCamera_select_eq (K : Opcodes) (U : Uvc σ) (s : CameraDriver σ) (index_id : Int)
    (devs : List Nat) :
    OpenCamera_select K U s index_id devs
      = if (selectDevice U index_id devs 0 { s with dev_ := none }).dev_ = none then
          (selectDevice U index_id devs 0 { s with dev_ := none }).emit
            (.ros .error "Unable to find device at index %d" [] [index_id])
        else if (OpenCamera_opened U (selectDevice U index_id devs 0
            { s with dev_ := none })).1 ≠ 0 then
          (if (OpenCamera_opened U (selectDevice U index_id devs 0
              { s with dev_ := none })).1 = -3 then
            (OpenCamera_opened U (selectDevice U index_id devs 0
              { s with dev_ := none })).2.emit
              (.ros .error "Permission denied opening /dev/bus/usb/%03d/%03d" [] [])
          else
            (OpenCamera_opened U (selectDevice U index_id devs 0
              { s with dev_ := none })).2.emit
              (.ros .error "Can't open /dev/bus/usb/%03d/%03d: %s (%d)" []
                [(OpenCamera_opened U (selectDevice U index_id devs 0
                  { s with dev_ := none })).1])).call U
            (.uvc_unref_device (selectDevice U index_id devs 0 { s with dev_ := none }).dev_)
        else
          OpenCamera_stream K U
            (OpenCamera_opened U (selectDevice U index_id devs 0 { s with dev_ := none })).2 := by
  unfold OpenCamera_select OpenCamera_opened
  simp only []
  split_ifs <;> rfl

theorem OpenCamera_stream_eq (K : Opcodes) (U : Uvc σ) (s : CameraDriver σ) :
    OpenCamera_stream K U s
      = if (OpenCamera_negotiated U s).1 ≠ 0 then
          let s7 := (OpenCamera_negotiated U s).2.2.2.emit
            (.ros .error "uvc_get_stream_ctrl_format_size" [] [])
          let s8 := s7.call U (.uvc_close s7.devh_)
          let s9 := s8.call U (.uvc_unref_device s8.dev_)
          let s10 := s9.emit
            (.ros .error "check video_mode/width/height/frame_rate are available" [] [])
          s10.call U (.uvc_print_diag s10.devh_)
        else
          let t := U.uvc_start_streaming (OpenCamera_negotiated U s).2.2.2.ext
            (OpenCamera_negotiated U s).2.2.2.devh_
          let s7 := ((OpenCamera_negotiated U s).2.2.2.withExt t.2).emit
            (.uvc_start_streaming (OpenCamera_negotiated U s).2.2.2.devh_)
          if t.1 ≠ 0 then
            let s8 := s7.emit (.ros .error "uvc_start_streaming" [] [])
            let s9 := s8.call U (.uvc_close s8.devh_)
            s9.call U (.uvc_unref_device s9.dev_)
          else
            OpenCamera_configure K U s7 (OpenCamera_negotiated U s).2.1
              (OpenCamera_negotiated U s).2.2.1 := by
  unfold OpenCamera_stream OpenCamera_negotiated
  rfl

theorem ctrlOps_append (a b : List Event) : ctrlOps (a ++ b) = ctrlOps a ++ ctrlOps b :=
  List.filter_append _ _

theorem emit_ctrlOps (s : CameraDriver σ) (e : Event) (he : e.isCtrl = false) :
    ctrlOps (s.emit e).trace = ctrlOps s.trace := by
  simp [CameraDriver.emit, ctrlOps, he]

theorem call_ctrlOps (U : Uvc σ) (s : CameraDriver σ) (e : Event) (he : e.isCtrl = false) :
    ctrlOps (s.call U e).trace = ctrlOps s.trace := by
  simp [CameraDriver.call, CameraDriver.emit, CameraDriver.withExt, ctrlOps, he]

theorem selectDevice_ctrlOps (U : Uvc σ) (index_id : Int) (devs : List Nat) :
    ∀ (i : Nat) (s : CameraDriver σ),
      ctrlOps (selectDevice U index_id devs i s).trace = ctrlOps s.trace := by
  induction devs with
  | nil => intro i s; rfl
  | cons d rest ih =>
    intro i s
    simp only [selectDevice]
    rw [ih]
    split_ifs
    · rfl
    · simp only [call_ctrlOps, Event.isCtrl]

theorem OpenCamera_lookup_state (U : Uvc σ) (s : CameraDriver σ) :
    (OpenCamera_lookup U s).2.2.2.state_ = s.state_ := by
  unfold OpenCamera_lookup
  simp only [emit_state, withExt_state]

theorem OpenCamera_lookup_ctrlOps (U : Uvc σ) (s : CameraDriver σ) :
    ctrlOps (OpenCamera_lookup U s).2.2.2.trace = ctrlOps s.trace := by
  unfold OpenCamera_lookup
  simp only []
  simp only [emit_ctrlOps, withExt_trace, Event.isCtrl]

theorem OpenCamera_opened_state (U : Uvc σ) (s : CameraDriver σ) :
    (OpenCamera_opened U s).2.state_ = s.state_ := rfl

theorem OpenCamera_opened_ctrlOps (U : Uvc σ) (s : CameraDriver σ) :
    ctrlOps (OpenCamera_opened U s).2.trace = ctrlOps s.trace := by
  unfold OpenCamera_opened
  simp only [emit_ctrlOps, withExt_trace, Event.isCtrl]

theorem OpenCamera_negotiated_state (U : Uvc σ) (s : CameraDriver σ) :
    (OpenCamera_negotiated U s).2.2.2.state_ = s.state_ := by
  unfold OpenCamera_negotiated
  simp only [emit_state, withExt_state]
  split_ifs
  · simp only [emit_state]
  · rfl

theorem OpenCamera_negotiated_ctrlOps (U : Uvc σ) (s : CameraDriver σ) :
    ctrlOps (OpenCamera_negotiated U s).2.2.2.trace = ctrlOps s.trace := by
  unfold OpenCamera_negotiated
  simp only []
  simp only [emit_ctrlOps, withExt_trace, Event.isCtrl]
  split_ifs <;> simp only [emit_ctrlOps, withExt_trace, Event.isCtrl]

/-- The outcome of `OpenCamera_stream`: `kRunning` when the negotiation and the stream
start succeed, otherwise the state of entry and no control transaction. -/
theorem OpenCamera_stream_outcome (K : Opcodes) (U : Uvc σ) (s : CameraDriver σ) :
    (((OpenCamera_negotiated U s).1 = 0
        ∧ (U.uvc_start_streaming (OpenCamera_negotiated U s).2.2.2.ext
            (OpenCamera_negotiated U s).2.2.2.devh_).1 = 0) →
      (OpenCamera_stream K U s).state_ = .kRunning)
    ∧ (¬ ((OpenCamera_negotiated U s).1 = 0
        ∧ (U.uvc_start_streaming (OpenCamera_negotiated U s).2.2.2.ext
            (OpenCamera_negotiated U s).2.2.2.devh_).1 = 0) →
      (OpenCamera_stream K U s).state_ = s.state_
        ∧ ctrlOps (OpenCamera_stream K U s).trace = ctrlOps s.trace) := by
  rw [OpenCamera_stream_eq]
  have hst := OpenCamera_negotiated_state U s
  have hct := OpenCamera_negotiated_ctrlOps U s
  generalize OpenCamera_negotiated U s = n at hst hct ⊢
  obtain ⟨m, w, h, s6⟩ := n
  simp only [] at hst hct ⊢
  by_cases hm : m = 0
  · by_cases ht : (U.uvc_start_streaming s6.ext s6.devh_).1 = 0
    · simp only [hm, ht, ne_eq, not_true_eq_false, if_false, and_self, true_implies,
        not_true_eq_false, false_implies, and_true]
      exact OpenCamera_configure_state K U _ _ _
    · simp only [hm, ht, ne_eq, not_true_eq_false, not_false_eq_true, if_false, if_true,
        and_false, false_implies, true_implies, true_and]
      refine ⟨?_, ?_⟩
      · simp only [call_state, emit_state, withExt_state]
        exact hst
      · simp only [emit_ctrlOps, call_ctrlOps, withExt_trace, Event.isCtrl]
        exact hct
  · simp only [hm, ne_eq, not_false_eq_true, if_true, false_and, false_implies,
      true_implies, true_and]
    refine ⟨?_, ?_⟩
    · simp only [call_state, emit_state, withExt_state]
      exact hst
    · simp only [emit_ctrlOps, call_ctrlOps, withExt_trace, Event.isCtrl]
      exact hct

/-- The outcome of `OpenCamera_select`: `kRunning` when the selection, the open, the
negotiation and the stream start succeed, otherwise the state of entry and no control
transaction. -/
theorem OpenCamera_select_outcome (K : Opcodes) (U : Uvc σ) (s : CameraDriver σ)
    (index_id : Int) (devs : List Nat) :
    (((selectDevice U index_id devs 0 { s with dev_ := none }).dev_ ≠ none
        ∧ (OpenCamera_opened U (selectDevice U index_id devs 0 { s with dev_ := none })).1 = 0
        ∧ (OpenCamera_negotiated U (OpenCamera_opened U
            (selectDevice U index_id devs 0 { s with dev_ := none })).2).1 = 0
        ∧ (U.uvc_start_streaming
            (OpenCamera_negotiated U (OpenCamera_opened U
              (selectDevice U index_id devs 0 { s with dev_ := none })).2).2.2.2.ext
            (OpenCamera_negotiated U (OpenCamera_opened U
              (selectDevice U index_id devs 0 { s with dev_ := none })).2).2.2.2.devh_).1 = 0) →
      (OpenCamera_select K U s index_id devs).state_ = .kRunning)
    ∧ (¬ ((selectDevice U index_id devs 0 { s with dev_ := none }).dev_ ≠ none
        ∧ (OpenCamera_opened U (selectDevice U index_id devs 0 { s with dev_ := none })).1 = 0
        ∧ (OpenCamera_negotiated U (OpenCamera_opened U
            (selectDevice U index_id devs 0 { s with dev_ := none })).2).1 = 0
        ∧ (U.uvc_start_streaming
            (OpenCamera_negotiated U (OpenCamera_opened U
              (selectDevice U index_id devs 0 { s with dev_ := none })).2).2.2.2.ext
            (OpenCamera_negotiated U (OpenCamera_opened U
              (selectDevice U index_id devs 0 { s with dev_ := none })).2).2.2.2.devh_).1 = 0) →
      (OpenCamera_select K U s index_id devs).state_ = s.state_
        ∧ ctrlOps (OpenCamera_select K U s index_id devs).trace = ctrlOps s.trace) := by
  rw [OpenCamera_select_eq]
  have hst : (selectDevice U index_id devs 0 { s with dev_ := none }).state_ = s.state_ :=
    selectDevice_state U index_id devs 0 _
  have hct : ctrlOps (selectDevice U index_id devs 0 { s with dev_ := none }).trace
      = ctrlOps s.trace := selectDevice_ctrlOps U index_id devs 0 _
  generalize selectDevice U index_id devs 0 { s with dev_ := none } = sel at hst hct ⊢
  have host := OpenCamera_opened_state U sel
  have hoct := OpenCamera_opened_ctrlOps U sel
  have hstream := OpenCamera_stream_outcome K U (OpenCamera_opened U sel).2
  generalize OpenCamera_opened U sel = o at host hoct hstream ⊢
  obtain ⟨open_err, s2⟩ := o
  simp only [] at host hoct hstream ⊢
  by_cases hd : sel.dev_ = none
  · simp only [hd, ne_eq, not_true_eq_false, if_true, false_and, false_implies,
      not_false_eq_true, true_implies, true_and]
    refine ⟨?_, ?_⟩
    · simp only [emit_state]
      exact hst
    · simp only [emit_ctrlOps, Event.isCtrl]
      exact hct
  · by_cases ho : open_err = 0
    · simp only [hd, ho, ne_eq, not_false_eq_true, not_true_eq_false, if_false, true_and]
      refine ⟨hstream.1, fun h => ?_⟩
      have h2 := hstream.2 h
      exact ⟨h2.1.trans (host.trans hst), h2.2.trans (hoct.trans hct)⟩
    · simp only [hd, ho, ne_eq, not_false_eq_true, if_true, if_false, false_and, and_false,
        false_implies, true_implies, true_and]
      refine ⟨?_, ?_⟩
      · simp only [call_state]
        split_ifs <;> simp only [emit_state] <;> exact host.trans hst
      · simp only [call_ctrlOps, Event.isCtrl]
        split_ifs <;> simp only [emit_ctrlOps, Event.isCtrl] <;> exact hoct.trans hct

/-- C11. From state `kStopped`, `OpenCamera` ends in state `kRunning` exactly when the
device lookup, the selection by index, the device open, the stream-format negotiation and
the stream start all succeed; when one of them fails the state on return is still
`kStopped` and the record holds no control transaction beyond those it held before. -/
theorem C11_open_runs_only_when_every_step_succeeds (K : Opcodes) (U : Uvc σ)
    (s : CameraDriver σ) (hs : s.state_ = .kStopped) :
    ((OpenCamera K U s).state_ = .kRunning ↔ (OpenCamera_checks U s).allPass)
    ∧ (¬ (OpenCamera_checks U s).allPass →
        (OpenCamera K U s).state_ = .kStopped
          ∧ ctrlOps (OpenCamera K U s).trace = ctrlOps s.trace) := by
  have hfail : ¬ (OpenCamera_checks U s).allPass →
      (OpenCamera K U s).state_ = s.state_
        ∧ ctrlOps (OpenCamera K U s).trace = ctrlOps s.trace := by
    intro h
    rw [OpenCamera_eq]
    have hst := OpenCamera_lookup_state U s
    have hct := OpenCamera_lookup_ctrlOps U s
    have hsel := OpenCamera_select_outcome K U (OpenCamera_lookup U s).2.2.2
      (OpenCamera_lookup U s).2.2.1 (OpenCamera_lookup U s).2.1
    by_cases hf : (OpenCamera_lookup U s).1 = 0
    · simp only [hf, ne_eq, not_true_eq_false, if_false]
      have h2 := hsel.2 (fun hp => h ⟨hf, hp⟩)
      exact ⟨h2.1.trans hst, h2.2.trans hct⟩
    · simp only [hf, ne_eq, not_false_eq_true, if_true]
      refine ⟨?_, ?_⟩
      · simp only [emit_state]
        exact hst
      · simp only [emit_ctrlOps, Event.isCtrl]
        exact hct
  have hpass : (OpenCamera_checks U s).allPass → (OpenCamera K U s).state_ = .kRunning := by
    intro h
    rw [OpenCamera_eq]
    have hf : (OpenCamera_lookup U s).1 = 0 := h.1
    simp only [hf, ne_eq, not_true_eq_false, if_false]
    exact (OpenCamera_select_outcome K U (OpenCamera_lookup U s).2.2.2
      (OpenCamera_lookup U s).2.2.1 (OpenCamera_lookup U s).2.1).1 h.2
  refine ⟨⟨fun hrun => ?_, hpass⟩, fun h => ⟨(hfail h).1.trans hs, (hfail h).2⟩⟩
  by_contra hno
  have := (hfail hno).1.trans hs
  rw [hrun] at this
  exact State.noConfusion this

/-- The sample world passes the five tests of `OpenCamera`: device `42` is selected. -/
theorem OpenCamera_checks_sample :
    OpenCamera_checks sampleUvc (sampleDriver .kStopped sampleWorld) = ⟨0, some 42, 0, 0, 0⟩
    ∧ (OpenCamera sampleOpcodes sampleUvc (sampleDriver .kStopped sampleWorld)).state_
        = .kRunning := by
  set_option maxRecDepth 20000 in
  exact ⟨by decide, by decide⟩

/-- In the world that refuses the open, the third test of `OpenCamera` fails, and in the
world with index `1` and one device the selection fails. -/
theorem OpenCamera_checks_refused :
    (OpenCamera_checks sampleUvc (sampleDriver .kStopped refusedWorld)).open_err = -3
    ∧ (OpenCamera_checks sampleUvc (sampleDriver .kStopped
        { sampleWorld with strings := [("index", "1")] })).dev = none := by
  set_option maxRecDepth 20000 in
  exact ⟨by decide, by decide⟩

/-- Witness of C11: the stopped sample driver in the world that refuses the open. -/
theorem C11_open_runs_only_when_every_step_succeeds_witness :
    (sampleDriver .kStopped refusedWorld).state_ = .kStopped
    ∧ ((OpenCamera sampleOpcodes sampleUvc (sampleDriver .kStopped refusedWorld)).state_
          = .kRunning
        ↔ (OpenCamera_checks sampleUvc (sampleDriver .kStopped refusedWorld)).allPass)
    ∧ (¬ (OpenCamera_checks sampleUvc (sampleDriver .kStopped refusedWorld)).allPass →
        (OpenCamera sampleOpcodes sampleUvc (sampleDriver .kStopped refusedWorld)).state_
            = .kStopped
          ∧ ctrlOps (OpenCamera sampleOpcodes sampleUvc
              (sampleDriver .kStopped refusedWorld)).trace
            = ctrlOps (sampleDriver .kStopped refusedWorld).trace) :=
  ⟨rfl, C11_open_runs_only_when_every_step_succeeds sampleOpcodes sampleUvc
    (sampleDriver .kStopped refusedWorld) rfl⟩

end OpenProofs

end cis_camera
